import Mathlib

/-!
Verification of the configuration engine of `datasynth_py`
(`datasynth_py/config/models.py` and `datasynth_py/config/validation.py`).

The Python code is shallowly embedded: Python runtime values that can occur
in a configuration mapping are modelled by the inductive `Value` (with a
dedicated constructor `vdc` for a dataclass instance, carrying its
`__dict__`), Python dicts by insertion-ordered association lists, and every
fallible Python operation by `Except String`.  Floats are modelled as exact
rationals: the configuration code only stores, copies and order-compares
these numbers, so no rounding behaviour is involved.
-/

namespace DataSynth

/-- A Python value as it can appear in a configuration payload:
`None`, `bool`, `int`, `float` (as an exact rational), `str`, `list`,
`dict` (insertion-ordered key/value list) or a dataclass instance
(`vdc`, carrying the instance `__dict__`). -/
inductive Value where
  | vnone
  | vbool (b : Bool)
  | vint (n : Int)
  | vrat (q : Rat)
  | vstr (s : String)
  | vlist (xs : List Value)
  | vdict (fs : List (String × Value))
  | vdc (fs : List (String × Value))

/-- A Python dict with string keys, as an insertion-ordered association list. -/
abbrev Fields := List (String × Value)

/-- `d.get(key)` / `key in d`: first binding of `key`, if any. -/
def lookupKey : Fields → String → Option Value
  | [], _ => none
  | (k, v) :: rest, key => if k = key then some v else lookupKey rest key

/-- `d[key] = v`: replace the binding of `key` in place, else append it. -/
def setKey : Fields → String → Value → Fields
  | [], key, v => [(key, v)]
  | (k, w) :: rest, key, v =>
      if k = key then (k, v) :: rest else (k, w) :: setKey rest key v

/-- `d.update(e)`: apply every binding of `e` to `d`, in order. -/
def updateDict (d e : Fields) : Fields :=
  e.foldl (fun acc kv => setKey acc kv.1 kv.2) d

/-- `d.get(key, dflt)`. -/
def getField (m : Fields) (key : String) (dflt : Value) : Value :=
  (lookupKey m key).getD dflt

/-- The keys of a dict, in order. -/
def keysOf (m : Fields) : List String := m.map Prod.fst

/-- `_strip_none`: drop every binding whose value is `None`. -/
def strip_none (values : Fields) : Fields :=
  values.filter (fun kv => !(kv.2 matches Value.vnone))

/-- Python truthiness of a value (`bool(v)`); a dataclass instance is
always truthy. -/
def truthy : Value → Bool
  | Value.vnone => false
  | Value.vbool b => b
  | Value.vint n => n != 0
  | Value.vrat q => q != 0
  | Value.vstr s => s != ""
  | Value.vlist xs => !xs.isEmpty
  | Value.vdict fs => !fs.isEmpty
  | Value.vdc _ => true

/-- A value usable in a Python numeric comparison (`bool` is an `int`
subtype); `none` for values whose comparison with a number raises. -/
def asNum : Value → Option Rat
  | Value.vbool b => some (if b then 1 else 0)
  | Value.vint n => some (n : Rat)
  | Value.vrat q => some q
  | _ => none

/-- `GlobalSettings`: all fields default to `None`. -/
structure GlobalSettings where
  industry : Value := Value.vnone
  start_date : Value := Value.vnone
  period_months : Value := Value.vnone
  seed : Value := Value.vnone
  group_currency : Value := Value.vnone
  parallel : Value := Value.vnone
  worker_threads : Value := Value.vnone
  memory_limit_mb : Value := Value.vnone

/-- `GlobalSettings.__dict__` in declaration order. -/
def GlobalSettings.fields (g : GlobalSettings) : Fields :=
  [("industry", g.industry), ("start_date", g.start_date),
   ("period_months", g.period_months), ("seed", g.seed),
   ("group_currency", g.group_currency), ("parallel", g.parallel),
   ("worker_threads", g.worker_threads), ("memory_limit_mb", g.memory_limit_mb)]

def GlobalSettings.valid_fields : List String :=
  ["industry", "start_date", "period_months", "seed",
   "group_currency", "parallel", "worker_threads", "memory_limit_mb"]

/-- `CompanyConfig`: `code` and `name` are required (no default). -/
structure CompanyConfig where
  code : Value
  name : Value
  currency : Value := Value.vstr "USD"
  country : Value := Value.vstr "US"
  annual_transaction_volume : Value := Value.vstr "ten_k"
  volume_weight : Value := Value.vrat 1
  fiscal_year_variant : Value := Value.vstr "K4"

def CompanyConfig.fields (c : CompanyConfig) : Fields :=
  [("code", c.code), ("name", c.name), ("currency", c.currency),
   ("country", c.country),
   ("annual_transaction_volume", c.annual_transaction_volume),
   ("volume_weight", c.volume_weight),
   ("fiscal_year_variant", c.fiscal_year_variant)]

def CompanyConfig.valid_fields : List String :=
  ["code", "name", "currency", "country", "annual_transaction_volume",
   "volume_weight", "fiscal_year_variant"]

structure ChartOfAccountsSettings where
  complexity : Value := Value.vnone
  industry_specific : Value := Value.vnone

def ChartOfAccountsSettings.fields (c : ChartOfAccountsSettings) : Fields :=
  [("complexity", c.complexity), ("industry_specific", c.industry_specific)]

def ChartOfAccountsSettings.valid_fields : List String :=
  ["complexity", "industry_specific"]

structure TransactionSettings where
  count : Value := Value.vnone
  currency : Value := Value.vnone
  anomaly_rate : Value := Value.vnone

def TransactionSettings.fields (t : TransactionSettings) : Fields :=
  [("count", t.count), ("currency", t.currency),
   ("anomaly_rate", t.anomaly_rate)]

def TransactionSettings.valid_fields : List String :=
  ["count", "currency", "anomaly_rate"]

structure OutputSettings where
  output_directory : Value := Value.vnone
  formats : Value := Value.vnone
  compression_enabled : Value := Value.vnone
  compression_level : Value := Value.vnone

def OutputSettings.fields (o : OutputSettings) : Fields :=
  [("output_directory", o.output_directory), ("formats", o.formats),
   ("compression_enabled", o.compression_enabled),
   ("compression_level", o.compression_level)]

def OutputSettings.valid_fields : List String :=
  ["output_directory", "formats", "compression_enabled", "compression_level"]

structure FraudSettings where
  enabled : Value := Value.vnone
  rate : Value := Value.vnone

def FraudSettings.fields (f : FraudSettings) : Fields :=
  [("enabled", f.enabled), ("rate", f.rate)]

def FraudSettings.valid_fields : List String := ["enabled", "rate"]

structure BankingSettings where
  enabled : Value := Value.vbool false
  retail_customers : Value := Value.vnone
  business_customers : Value := Value.vnone
  trusts : Value := Value.vnone
  typologies_enabled : Value := Value.vnone
  spoofing_enabled : Value := Value.vnone

def BankingSettings.fields (b : BankingSettings) : Fields :=
  [("enabled", b.enabled), ("retail_customers", b.retail_customers),
   ("business_customers", b.business_customers), ("trusts", b.trusts),
   ("typologies_enabled", b.typologies_enabled),
   ("spoofing_enabled", b.spoofing_enabled)]

def BankingSettings.valid_fields : List String :=
  ["enabled", "retail_customers", "business_customers", "trusts",
   "typologies_enabled", "spoofing_enabled"]

structure ScenarioSettings where
  tags : Value := Value.vnone
  profile : Value := Value.vnone
  ml_training : Value := Value.vbool false
  target_anomaly_ratio : Value := Value.vnone
  description : Value := Value.vnone
  metadata : Value := Value.vnone

def ScenarioSettings.fields (s : ScenarioSettings) : Fields :=
  [("tags", s.tags), ("profile", s.profile), ("ml_training", s.ml_training),
   ("target_anomaly_ratio", s.target_anomaly_ratio),
   ("description", s.description), ("metadata", s.metadata)]

def ScenarioSettings.valid_fields : List String :=
  ["tags", "profile", "ml_training", "target_anomaly_ratio",
   "description", "metadata"]

structure TemporalDriftSettings where
  enabled : Value := Value.vbool false
  amount_mean_drift : Value := Value.vrat (2/100)
  amount_variance_drift : Value := Value.vrat (1/100)
  anomaly_rate_drift : Value := Value.vrat 0
  concept_drift_rate : Value := Value.vrat 0
  drift_type : Value := Value.vstr "gradual"
  seasonal_drift : Value := Value.vbool true
  drift_start_period : Value := Value.vnone

def TemporalDriftSettings.fields (t : TemporalDriftSettings) : Fields :=
  [("enabled", t.enabled), ("amount_mean_drift", t.amount_mean_drift),
   ("amount_variance_drift", t.amount_variance_drift),
   ("anomaly_rate_drift", t.anomaly_rate_drift),
   ("concept_drift_rate", t.concept_drift_rate),
   ("drift_type", t.drift_type), ("seasonal_drift", t.seasonal_drift),
   ("drift_start_period", t.drift_start_period)]

def TemporalDriftSettings.valid_fields : List String :=
  ["enabled", "amount_mean_drift", "amount_variance_drift",
   "anomaly_rate_drift", "concept_drift_rate", "drift_type",
   "seasonal_drift", "drift_start_period"]

structure DataQualitySettings where
  enabled : Value := Value.vbool false
  missing_rate : Value := Value.vrat (5/100)
  typo_rate : Value := Value.vrat (2/100)
  format_variation_rate : Value := Value.vrat (3/100)
  duplicate_rate : Value := Value.vrat (1/100)
  encoding_issue_rate : Value := Value.vrat (5/1000)

def DataQualitySettings.fields (d : DataQualitySettings) : Fields :=
  [("enabled", d.enabled), ("missing_rate", d.missing_rate),
   ("typo_rate", d.typo_rate),
   ("format_variation_rate", d.format_variation_rate),
   ("duplicate_rate", d.duplicate_rate),
   ("encoding_issue_rate", d.encoding_issue_rate)]

def DataQualitySettings.valid_fields : List String :=
  ["enabled", "missing_rate", "typo_rate", "format_variation_rate",
   "duplicate_rate", "encoding_issue_rate"]

structure GraphExportSettings where
  enabled : Value := Value.vbool false
  formats : Value := Value.vnone
  graph_types : Value := Value.vnone
  train_ratio : Value := Value.vrat (7/10)
  validation_ratio : Value := Value.vrat (15/100)
  output_subdirectory : Value := Value.vstr "graphs"

def GraphExportSettings.fields (g : GraphExportSettings) : Fields :=
  [("enabled", g.enabled), ("formats", g.formats),
   ("graph_types", g.graph_types), ("train_ratio", g.train_ratio),
   ("validation_ratio", g.validation_ratio),
   ("output_subdirectory", g.output_subdirectory)]

def GraphExportSettings.valid_fields : List String :=
  ["enabled", "formats", "graph_types", "train_ratio",
   "validation_ratio", "output_subdirectory"]

structure AuditSettings where
  enabled : Value := Value.vbool false
  engagements : Value := Value.vint 5
  workpapers_per_engagement : Value := Value.vint 20
  evidence_per_workpaper : Value := Value.vint 5
  risks_per_engagement : Value := Value.vint 15
  findings_per_engagement : Value := Value.vint 8

def AuditSettings.fields (a : AuditSettings) : Fields :=
  [("enabled", a.enabled), ("engagements", a.engagements),
   ("workpapers_per_engagement", a.workpapers_per_engagement),
   ("evidence_per_workpaper", a.evidence_per_workpaper),
   ("risks_per_engagement", a.risks_per_engagement),
   ("findings_per_engagement", a.findings_per_engagement)]

def AuditSettings.valid_fields : List String :=
  ["enabled", "engagements", "workpapers_per_engagement",
   "evidence_per_workpaper", "risks_per_engagement",
   "findings_per_engagement"]

structure StreamingSettings where
  enabled : Value := Value.vbool false
  buffer_size : Value := Value.vint 1000
  enable_progress : Value := Value.vbool true
  progress_interval : Value := Value.vint 100
  backpressure : Value := Value.vstr "block"

def StreamingSettings.fields (s : StreamingSettings) : Fields :=
  [("enabled", s.enabled), ("buffer_size", s.buffer_size),
   ("enable_progress", s.enable_progress),
   ("progress_interval", s.progress_interval),
   ("backpressure", s.backpressure)]

def StreamingSettings.valid_fields : List String :=
  ["enabled", "buffer_size", "enable_progress", "progress_interval",
   "backpressure"]

structure RateLimitSettings where
  enabled : Value := Value.vbool false
  entities_per_second : Value := Value.vrat 10000
  burst_size : Value := Value.vint 100
  backpressure : Value := Value.vstr "block"

def RateLimitSettings.fields (r : RateLimitSettings) : Fields :=
  [("enabled", r.enabled), ("entities_per_second", r.entities_per_second),
   ("burst_size", r.burst_size), ("backpressure", r.backpressure)]

def RateLimitSettings.valid_fields : List String :=
  ["enabled", "entities_per_second", "burst_size", "backpressure"]

structure ValidTimeSettings where
  closed_probability : Value := Value.vrat (1/10)
  avg_validity_days : Value := Value.vint 365
  validity_stddev_days : Value := Value.vint 90

def ValidTimeSettings.fields (v : ValidTimeSettings) : Fields :=
  [("closed_probability", v.closed_probability),
   ("avg_validity_days", v.avg_validity_days),
   ("validity_stddev_days", v.validity_stddev_days)]

def ValidTimeSettings.valid_fields : List String :=
  ["closed_probability", "avg_validity_days", "validity_stddev_days"]

structure TransactionTimeSettings where
  avg_recording_delay_seconds : Value := Value.vint 0
  allow_backdating : Value := Value.vbool false
  backdating_probability : Value := Value.vrat (1/100)

def TransactionTimeSettings.fields (t : TransactionTimeSettings) : Fields :=
  [("avg_recording_delay_seconds", t.avg_recording_delay_seconds),
   ("allow_backdating", t.allow_backdating),
   ("backdating_probability", t.backdating_probability)]

def TransactionTimeSettings.valid_fields : List String :=
  ["avg_recording_delay_seconds", "allow_backdating",
   "backdating_probability"]

structure TemporalAttributeSettings where
  enabled : Value := Value.vbool false
  valid_time : Option ValidTimeSettings := none
  transaction_time : Option TransactionTimeSettings := none
  generate_version_chains : Value := Value.vbool false
  avg_versions_per_entity : Value := Value.vrat (3/2)

structure CardinalityRule where
  rule_type : Value
  min_count : Value := Value.vnone
  max_count : Value := Value.vnone

structure RelationshipTypeConfig where
  name : Value
  source_type : Value
  target_type : Value
  cardinality : Option CardinalityRule := none
  weight : Value := Value.vrat 1

structure RelationshipSettings where
  enabled : Value := Value.vbool false
  relationship_types : Option (List RelationshipTypeConfig) := none
  allow_orphans : Value := Value.vbool true
  orphan_probability : Value := Value.vrat (1/100)
  allow_circular : Value := Value.vbool false
  max_circular_depth : Value := Value.vint 3

/-- `Config`: the root configuration container. -/
structure Config where
  global_settings : Option GlobalSettings := none
  companies : Option (List CompanyConfig) := none
  chart_of_accounts : Option ChartOfAccountsSettings := none
  transactions : Option TransactionSettings := none
  output : Option OutputSettings := none
  fraud : Option FraudSettings := none
  banking : Option BankingSettings := none
  scenario : Option ScenarioSettings := none
  temporal : Option TemporalDriftSettings := none
  data_quality : Option DataQualitySettings := none
  graph_export : Option GraphExportSettings := none
  audit : Option AuditSettings := none
  streaming : Option StreamingSettings := none
  rate_limit : Option RateLimitSettings := none
  temporal_attributes : Option TemporalAttributeSettings := none
  relationships : Option RelationshipSettings := none
  extra : Fields := []

/-- A dict binding under `key`, when a `to_dict` block assigns one. -/
def entryIf (key : String) : Option Value → Fields
  | none => []
  | some v => [(key, v)]

/-- `to_dict` block for `global`: emitted whenever the section is present. -/
def global_payload (c : Config) : Option Value :=
  c.global_settings.map (fun g => Value.vdict (strip_none g.fields))

/-- `to_dict` block for `companies`: emitted whenever the list is present. -/
def companies_payload (c : Config) : Option Value :=
  c.companies.map (fun cs => Value.vlist (cs.map (fun x => Value.vdict (strip_none x.fields))))

/-- `to_dict` block for `chart_of_accounts`: emitted whenever present. -/
def chart_of_accounts_payload (c : Config) : Option Value :=
  c.chart_of_accounts.map (fun x => Value.vdict (strip_none x.fields))

/-- `to_dict` block for `transactions`: the code inspects `tx_dict` for
`count` and `currency` but adds nothing to `cli_transactions` (both are
derived elsewhere in the CLI schema), and emits the key only when
`cli_transactions` is non-empty — so it is never emitted. -/
def transactions_section (t : TransactionSettings) : Option Value :=
  let tx_dict := strip_none t.fields
  let cli_transactions : Fields := []
  let cli_transactions :=
    if (lookupKey tx_dict "count").isSome then cli_transactions else cli_transactions
  let cli_transactions :=
    if (lookupKey tx_dict "currency").isSome then cli_transactions else cli_transactions
  if cli_transactions.isEmpty then none else some (Value.vdict cli_transactions)

def transactions_payload (c : Config) : Option Value :=
  c.transactions.bind transactions_section

/-- `to_dict` block for `output`: flat fields are copied, the two
compression fields are folded into a nested `compression` object, and the
key is emitted only when `cli_output` is non-empty. -/
def output_section (o : OutputSettings) : Option Value :=
  let out_dict := strip_none o.fields
  let cli_output : Fields := []
  let cli_output :=
    match lookupKey out_dict "output_directory" with
    | some v => setKey cli_output "output_directory" v
    | none => cli_output
  let cli_output :=
    match lookupKey out_dict "formats" with
    | some v => setKey cli_output "formats" v
    | none => cli_output
  let cli_output :=
    if (lookupKey out_dict "compression_enabled").isSome
        || (lookupKey out_dict "compression_level").isSome then
      let compression : Fields := []
      let compression :=
        match lookupKey out_dict "compression_enabled" with
        | some v => setKey compression "enabled" v
        | none => compression
      let compression :=
        match lookupKey out_dict "compression_level" with
        | some v => setKey compression "level" v
        | none => compression
      setKey cli_output "compression" (Value.vdict compression)
    else cli_output
  if cli_output.isEmpty then none else some (Value.vdict cli_output)

def output_payload (c : Config) : Option Value :=
  c.output.bind output_section

/-- `to_dict` block for the sections guarded by a truthiness test on their
stripped dict (`fraud`, `banking`, `scenario`, `temporal`, `data_quality`,
`graph_export`, `audit`, `streaming`, `rate_limit`). -/
def sparse_payload (fields : Fields) : Option Value :=
  let d := strip_none fields
  if d.isEmpty then none else some (Value.vdict d)

def fraud_payload (c : Config) : Option Value :=
  c.fraud.bind (fun f => sparse_payload f.fields)

def banking_payload (c : Config) : Option Value :=
  c.banking.bind (fun b => sparse_payload b.fields)

def scenario_payload (c : Config) : Option Value :=
  c.scenario.bind (fun s => sparse_payload s.fields)

def temporal_payload (c : Config) : Option Value :=
  c.temporal.bind (fun t => sparse_payload t.fields)

def data_quality_payload (c : Config) : Option Value :=
  c.data_quality.bind (fun d => sparse_payload d.fields)

def graph_export_payload (c : Config) : Option Value :=
  c.graph_export.bind (fun g => sparse_payload g.fields)

def audit_payload (c : Config) : Option Value :=
  c.audit.bind (fun a => sparse_payload a.fields)

def streaming_payload (c : Config) : Option Value :=
  c.streaming.bind (fun s => sparse_payload s.fields)

def rate_limit_payload (c : Config) : Option Value :=
  c.rate_limit.bind (fun r => sparse_payload r.fields)

/-- `to_dict` block for `temporal_attributes`: `enabled`,
`generate_version_chains` and `avg_versions_per_entity` are always
emitted; the two optional sub-sections only when present. -/
def temporal_attributes_section (ta : TemporalAttributeSettings) : Value :=
  let ta_dict : Fields := [("enabled", ta.enabled)]
  let ta_dict :=
    match ta.valid_time with
    | some vt => setKey ta_dict "valid_time" (Value.vdict (strip_none vt.fields))
    | none => ta_dict
  let ta_dict :=
    match ta.transaction_time with
    | some tt => setKey ta_dict "transaction_time" (Value.vdict (strip_none tt.fields))
    | none => ta_dict
  let ta_dict := setKey ta_dict "generate_version_chains" ta.generate_version_chains
  let ta_dict := setKey ta_dict "avg_versions_per_entity" ta.avg_versions_per_entity
  Value.vdict ta_dict

def temporal_attributes_payload (c : Config) : Option Value :=
  c.temporal_attributes.map temporal_attributes_section

/-- One `relationship_types` entry: `cardinality` is inlined as
`rule_type` with `min`/`max` emitted only when truthy. -/
def relationshipTypeEntry (rt : RelationshipTypeConfig) : Value :=
  Value.vdict
    ([("name", rt.name), ("source_type", rt.source_type),
      ("target_type", rt.target_type), ("weight", rt.weight)] ++
      (match rt.cardinality with
       | some cd =>
           [("cardinality", Value.vdict
              ([("rule_type", cd.rule_type)] ++
               (if truthy cd.min_count then [("min", cd.min_count)] else []) ++
               (if truthy cd.max_count then [("max", cd.max_count)] else [])))]
       | none => []))

/-- `to_dict` block for `relationships`: always emitted when present. -/
def relationships_section (r : RelationshipSettings) : Value :=
  let rel_dict : Fields := [("enabled", r.enabled)]
  let rel_dict :=
    match r.relationship_types with
    | some rts =>
        setKey rel_dict "relationship_types"
          (Value.vlist (rts.map relationshipTypeEntry))
    | none => rel_dict
  let rel_dict := setKey rel_dict "allow_orphans" r.allow_orphans
  let rel_dict := setKey rel_dict "orphan_probability" r.orphan_probability
  let rel_dict := setKey rel_dict "allow_circular" r.allow_circular
  let rel_dict := setKey rel_dict "max_circular_depth" r.max_circular_depth
  Value.vdict rel_dict

def relationships_payload (c : Config) : Option Value :=
  c.relationships.map relationships_section

/-- The `payload` dict built by `Config.to_dict` before the extra bag is
merged in: one optional entry per section, in source order. -/
def sectionPayload (c : Config) : Fields :=
  entryIf "global" (global_payload c) ++
  entryIf "companies" (companies_payload c) ++
  entryIf "chart_of_accounts" (chart_of_accounts_payload c) ++
  entryIf "transactions" (transactions_payload c) ++
  entryIf "output" (output_payload c) ++
  entryIf "fraud" (fraud_payload c) ++
  entryIf "banking" (banking_payload c) ++
  entryIf "scenario" (scenario_payload c) ++
  entryIf "temporal" (temporal_payload c) ++
  entryIf "data_quality" (data_quality_payload c) ++
  entryIf "graph_export" (graph_export_payload c) ++
  entryIf "audit" (audit_payload c) ++
  entryIf "streaming" (streaming_payload c) ++
  entryIf "rate_limit" (rate_limit_payload c) ++
  entryIf "temporal_attributes" (temporal_attributes_payload c) ++
  entryIf "relationships" (relationships_payload c)

/-- `Config.to_dict`: the canonical mapping — the section payload with the
extra bag merged in last via `payload.update(self.extra)`. -/
def Config.to_dict (c : Config) : Fields :=
  updateDict (sectionPayload c) c.extra

/-- `hasattr(value, "__dataclass_fields__")`. -/
def is_dataclass_instance : Value → Bool
  | Value.vdc _ => true
  | _ => false

mutual

/-- `_deep_merge(base, overrides)`: recursive merge; dict-into-dict merges
recursively, a dataclass override is replaced by its stripped `__dict__`,
anything else replaces the base value. -/
def deep_merge : Fields → Fields → Fields
  | base, [] => base
  | base, (key, value) :: rest => deep_merge (deep_merge_key base key value) rest

/-- One step of `_deep_merge` for binding `key ↦ value`. -/
def deep_merge_key (base : Fields) (key : String) (value : Value) : Fields :=
  match value, lookupKey base key with
  | Value.vdict m, some (Value.vdict b) => setKey base key (Value.vdict (deep_merge b m))
  | Value.vdc fs, _ => setKey base key (Value.vdict (strip_none fs))
  | v, _ => setKey base key v

end

/-- The body of `_build_dataclass`: `None` payload gives `None`, a dict
payload is filtered to the dataclass fields and passed to the constructor,
any other payload raises (`payload.items()` fails). -/
def build_dataclass (valid : List String) (ofPayload : Fields → α) :
    Option Value → Except String (Option α)
  | none => pure none
  | some Value.vnone => pure none
  | some (Value.vdict m) =>
      pure (some (ofPayload (m.filter (fun kv => decide (kv.1 ∈ valid)))))
  | some _ => throw "payload has no attribute items"

/-- `GlobalSettings(**filtered_payload)`. -/
def GlobalSettings.of_payload (fp : Fields) : GlobalSettings :=
  { industry := getField fp "industry" Value.vnone,
    start_date := getField fp "start_date" Value.vnone,
    period_months := getField fp "period_months" Value.vnone,
    seed := getField fp "seed" Value.vnone,
    group_currency := getField fp "group_currency" Value.vnone,
    parallel := getField fp "parallel" Value.vnone,
    worker_threads := getField fp "worker_threads" Value.vnone,
    memory_limit_mb := getField fp "memory_limit_mb" Value.vnone }

def ChartOfAccountsSettings.of_payload (fp : Fields) : ChartOfAccountsSettings :=
  { complexity := getField fp "complexity" Value.vnone,
    industry_specific := getField fp "industry_specific" Value.vnone }

def TransactionSettings.of_payload (fp : Fields) : TransactionSettings :=
  { count := getField fp "count" Value.vnone,
    currency := getField fp "currency" Value.vnone,
    anomaly_rate := getField fp "anomaly_rate" Value.vnone }

def OutputSettings.of_payload (fp : Fields) : OutputSettings :=
  { output_directory := getField fp "output_directory" Value.vnone,
    formats := getField fp "formats" Value.vnone,
    compression_enabled := getField fp "compression_enabled" Value.vnone,
    compression_level := getField fp "compression_level" Value.vnone }

def FraudSettings.of_payload (fp : Fields) : FraudSettings :=
  { enabled := getField fp "enabled" Value.vnone,
    rate := getField fp "rate" Value.vnone }

def BankingSettings.of_payload (fp : Fields) : BankingSettings :=
  { enabled := getField fp "enabled" (Value.vbool false),
    retail_customers := getField fp "retail_customers" Value.vnone,
    business_customers := getField fp "business_customers" Value.vnone,
    trusts := getField fp "trusts" Value.vnone,
    typologies_enabled := getField fp "typologies_enabled" Value.vnone,
    spoofing_enabled := getField fp "spoofing_enabled" Value.vnone }

def ScenarioSettings.of_payload (fp : Fields) : ScenarioSettings :=
  { tags := getField fp "tags" Value.vnone,
    profile := getField fp "profile" Value.vnone,
    ml_training := getField fp "ml_training" (Value.vbool false),
    target_anomaly_ratio := getField fp "target_anomaly_ratio" Value.vnone,
    description := getField fp "description" Value.vnone,
    metadata := getField fp "metadata" Value.vnone }

def TemporalDriftSettings.of_payload (fp : Fields) : TemporalDriftSettings :=
  { enabled := getField fp "enabled" (Value.vbool false),
    amount_mean_drift := getField fp "amount_mean_drift" (Value.vrat (2/100)),
    amount_variance_drift := getField fp "amount_variance_drift" (Value.vrat (1/100)),
    anomaly_rate_drift := getField fp "anomaly_rate_drift" (Value.vrat 0),
    concept_drift_rate := getField fp "concept_drift_rate" (Value.vrat 0),
    drift_type := getField fp "drift_type" (Value.vstr "gradual"),
    seasonal_drift := getField fp "seasonal_drift" (Value.vbool true),
    drift_start_period := getField fp "drift_start_period" Value.vnone }

def DataQualitySettings.of_payload (fp : Fields) : DataQualitySettings :=
  { enabled := getField fp "enabled" (Value.vbool false),
    missing_rate := getField fp "missing_rate" (Value.vrat (5/100)),
    typo_rate := getField fp "typo_rate" (Value.vrat (2/100)),
    format_variation_rate := getField fp "format_variation_rate" (Value.vrat (3/100)),
    duplicate_rate := getField fp "duplicate_rate" (Value.vrat (1/100)),
    encoding_issue_rate := getField fp "encoding_issue_rate" (Value.vrat (5/1000)) }

def GraphExportSettings.of_payload (fp : Fields) : GraphExportSettings :=
  { enabled := getField fp "enabled" (Value.vbool false),
    formats := getField fp "formats" Value.vnone,
    graph_types := getField fp "graph_types" Value.vnone,
    train_ratio := getField fp "train_ratio" (Value.vrat (7/10)),
    validation_ratio := getField fp "validation_ratio" (Value.vrat (15/100)),
    output_subdirectory := getField fp "output_subdirectory" (Value.vstr "graphs") }

def AuditSettings.of_payload (fp : Fields) : AuditSettings :=
  { enabled := getField fp "enabled" (Value.vbool false),
    engagements := getField fp "engagements" (Value.vint 5),
    workpapers_per_engagement := getField fp "workpapers_per_engagement" (Value.vint 20),
    evidence_per_workpaper := getField fp "evidence_per_workpaper" (Value.vint 5),
    risks_per_engagement := getField fp "risks_per_engagement" (Value.vint 15),
    findings_per_engagement := getField fp "findings_per_engagement" (Value.vint 8) }

def StreamingSettings.of_payload (fp : Fields) : StreamingSettings :=
  { enabled := getField fp "enabled" (Value.vbool false),
    buffer_size := getField fp "buffer_size" (Value.vint 1000),
    enable_progress := getField fp "enable_progress" (Value.vbool true),
    progress_interval := getField fp "progress_interval" (Value.vint 100),
    backpressure := getField fp "backpressure" (Value.vstr "block") }

def RateLimitSettings.of_payload (fp : Fields) : RateLimitSettings :=
  { enabled := getField fp "enabled" (Value.vbool false),
    entities_per_second := getField fp "entities_per_second" (Value.vrat 10000),
    burst_size := getField fp "burst_size" (Value.vint 100),
    backpressure := getField fp "backpressure" (Value.vstr "block") }

def ValidTimeSettings.of_payload (fp : Fields) : ValidTimeSettings :=
  { closed_probability := getField fp "closed_probability" (Value.vrat (1/10)),
    avg_validity_days := getField fp "avg_validity_days" (Value.vint 365),
    validity_stddev_days := getField fp "validity_stddev_days" (Value.vint 90) }

def TransactionTimeSettings.of_payload (fp : Fields) : TransactionTimeSettings :=
  { avg_recording_delay_seconds := getField fp "avg_recording_delay_seconds" (Value.vint 0),
    allow_backdating := getField fp "allow_backdating" (Value.vbool false),
    backdating_probability := getField fp "backdating_probability" (Value.vrat (1/100)) }

/-- `CompanyConfig(**c)`: unlike `_build_dataclass`, a direct keyword call —
an unknown key or a missing required `code`/`name` raises `TypeError`. -/
def build_company : Value → Except String CompanyConfig
  | Value.vdict cdat =>
      if cdat.all (fun kv => decide (kv.1 ∈ CompanyConfig.valid_fields)) then
        match lookupKey cdat "code", lookupKey cdat "name" with
        | some code, some nm =>
            pure { code := code, name := nm,
                   currency := getField cdat "currency" (Value.vstr "USD"),
                   country := getField cdat "country" (Value.vstr "US"),
                   annual_transaction_volume :=
                     getField cdat "annual_transaction_volume" (Value.vstr "ten_k"),
                   volume_weight := getField cdat "volume_weight" (Value.vrat 1),
                   fiscal_year_variant :=
                     getField cdat "fiscal_year_variant" (Value.vstr "K4") }
        | _, _ => throw "CompanyConfig missing a required argument"
      else throw "CompanyConfig got an unexpected keyword argument"
  | _ => throw "CompanyConfig keywords must be a mapping"

/-- `range(count)` as the legacy expansion uses it: a Python `int` (or
`bool`, an `int` subtype); a negative count gives the empty range,
anything else raises `TypeError`. -/
def pyRange : Value → Except String (List Nat)
  | Value.vint n => pure (List.range n.toNat)
  | Value.vbool b => pure (List.range (if b then 1 else 0))
  | _ => throw "range argument must be an integer"

/-- Python `f"C{i + 1:03d}"` padding: minimum width 3, zero-filled. -/
def format03d (n : Nat) : String :=
  if n < 10 then "00" ++ toString n
  else if n < 100 then "0" ++ toString n
  else toString n

/-- One synthesized legacy company (`i` ranges over `range(count)`). -/
def legacyCompany (i : Nat) : CompanyConfig :=
  { code := Value.vstr ("C" ++ format03d (i + 1)),
    name := Value.vstr ("Company " ++ toString (i + 1)) }

/-- One `relationship_types` element of `from_dict`: `cardinality` is read
first (when truthy it must be a mapping), then the three required keys
(`KeyError` when missing) and the defaulted `weight`. -/
def build_relationship_type : Value → Except String RelationshipTypeConfig
  | Value.vdict rtm => do
      let cardinality ←
        if truthy (getField rtm "cardinality" Value.vnone) then
          match getField rtm "cardinality" Value.vnone with
          | Value.vdict cd =>
              pure (some
                { rule_type := getField cd "rule_type" (Value.vstr "one_to_many"),
                  min_count := getField cd "min" Value.vnone,
                  max_count := getField cd "max" Value.vnone })
          | _ => throw "cardinality has no attribute get"
        else pure none
      match lookupKey rtm "name", lookupKey rtm "source_type",
          lookupKey rtm "target_type" with
      | some nm, some st, some tt =>
          pure { name := nm, source_type := st, target_type := tt,
                 cardinality := cardinality,
                 weight := getField rtm "weight" (Value.vrat 1) }
      | _, _, _ => throw "KeyError in relationship type entry"
  | _ => throw "relationship type entry has no attribute get"

/-- The `temporal_attributes` block of `from_dict`. -/
def build_temporal_attributes :
    Option Value → Except String (Option TemporalAttributeSettings)
  | none => pure none
  | some Value.vnone => pure none
  | some (Value.vdict ta_data) => do
      let valid_time ← build_dataclass ValidTimeSettings.valid_fields
        ValidTimeSettings.of_payload (lookupKey ta_data "valid_time")
      let transaction_time ← build_dataclass TransactionTimeSettings.valid_fields
        TransactionTimeSettings.of_payload (lookupKey ta_data "transaction_time")
      pure (some
        { enabled := getField ta_data "enabled" (Value.vbool false),
          valid_time := valid_time,
          transaction_time := transaction_time,
          generate_version_chains :=
            getField ta_data "generate_version_chains" (Value.vbool false),
          avg_versions_per_entity :=
            getField ta_data "avg_versions_per_entity" (Value.vrat (3/2)) })
  | some _ => throw "temporal_attributes has no attribute get"

/-- The `relationships` block of `from_dict`. -/
def build_relationships :
    Option Value → Except String (Option RelationshipSettings)
  | none => pure none
  | some Value.vnone => pure none
  | some (Value.vdict rel_data) => do
      let rel_types ←
        if truthy (getField rel_data "relationship_types" Value.vnone) then
          match getField rel_data "relationship_types" Value.vnone with
          | Value.vlist rts => do
              let lst ← rts.mapM build_relationship_type
              pure (some lst)
          | _ => throw "relationship_types is not iterable over mappings"
        else pure none
      pure (some
        { enabled := getField rel_data "enabled" (Value.vbool false),
          relationship_types := rel_types,
          allow_orphans := getField rel_data "allow_orphans" (Value.vbool true),
          orphan_probability := getField rel_data "orphan_probability" (Value.vrat (1/100)),
          allow_circular := getField rel_data "allow_circular" (Value.vbool false),
          max_circular_depth := getField rel_data "max_circular_depth" (Value.vint 3) })
  | some _ => throw "relationships has no attribute get"

/-- The sixteen top-level keys `from_dict` recognizes. -/
def known_keys : List String :=
  ["global", "companies", "chart_of_accounts", "transactions", "output",
   "fraud", "banking", "scenario", "temporal", "data_quality", "graph_export",
   "audit", "streaming", "rate_limit", "temporal_attributes", "relationships"]

/-- The `companies` block of `from_dict`: a sequence is normalized
element-wise, the legacy dict shape synthesizes `count` default companies
and hoists its `industry` hint into `global` when that is not already set,
and any other non-`None` shape leaves `companies` unset. -/
def build_companies (companies_data : Option Value)
    (global_settings : Option GlobalSettings) :
    Except String (Option (List CompanyConfig) × Option GlobalSettings) :=
  match companies_data with
  | none => pure (none, global_settings)
  | some Value.vnone => pure (none, global_settings)
  | some (Value.vlist cs) => do
      let lst ← cs.mapM build_company
      pure (some lst, global_settings)
  | some (Value.vdict m) => do
      let count := getField m "count" (Value.vint 1)
      let industry := getField m "industry" (Value.vstr "retail")
      let idxs ← pyRange count
      let companies := some (idxs.map legacyCompany)
      let global_settings :=
        match global_settings with
        | none => some { industry := industry }
        | some g =>
            if g.industry matches Value.vnone then
              some { industry := industry, start_date := g.start_date,
                     period_months := g.period_months, seed := g.seed,
                     group_currency := g.group_currency, parallel := g.parallel,
                     worker_threads := g.worker_threads,
                     memory_limit_mb := g.memory_limit_mb }
            else some g
      pure (companies, global_settings)
  | some _ => pure (none, global_settings)

/-- The legacy `complexity` fallback: only when `chart_of_accounts` is
absent and the `companies` value is a legacy dict with a truthy
`complexity`. -/
def chart_fallback (chart_of_accounts : Option ChartOfAccountsSettings)
    (companies_data : Option Value) : Option ChartOfAccountsSettings :=
  match chart_of_accounts, companies_data with
  | none, some (Value.vdict m) =>
      let complexity := getField m "complexity" Value.vnone
      if truthy complexity then some { complexity := complexity } else none
  | coa, _ => coa

/-- `Config.from_dict`. -/
def Config.from_dict (data : Fields) : Except String Config := do
  let global_settings ← build_dataclass GlobalSettings.valid_fields
    GlobalSettings.of_payload (lookupKey data "global")
  let companies_data := lookupKey data "companies"
  let (companies, global_settings) ← build_companies companies_data global_settings
  let chart_of_accounts ← build_dataclass ChartOfAccountsSettings.valid_fields
    ChartOfAccountsSettings.of_payload (lookupKey data "chart_of_accounts")
  let chart_of_accounts := chart_fallback chart_of_accounts companies_data
  let transactions ← build_dataclass TransactionSettings.valid_fields
    TransactionSettings.of_payload (lookupKey data "transactions")
  let output ← build_dataclass OutputSettings.valid_fields
    OutputSettings.of_payload (lookupKey data "output")
  let fraud ← build_dataclass FraudSettings.valid_fields
    FraudSettings.of_payload (lookupKey data "fraud")
  let banking ← build_dataclass BankingSettings.valid_fields
    BankingSettings.of_payload (lookupKey data "banking")
  let scenario ← build_dataclass ScenarioSettings.valid_fields
    ScenarioSettings.of_payload (lookupKey data "scenario")
  let temporal ← build_dataclass TemporalDriftSettings.valid_fields
    TemporalDriftSettings.of_payload (lookupKey data "temporal")
  let data_quality ← build_dataclass DataQualitySettings.valid_fields
    DataQualitySettings.of_payload (lookupKey data "data_quality")
  let graph_export ← build_dataclass GraphExportSettings.valid_fields
    GraphExportSettings.of_payload (lookupKey data "graph_export")
  let audit ← build_dataclass AuditSettings.valid_fields
    AuditSettings.of_payload (lookupKey data "audit")
  let streaming ← build_dataclass StreamingSettings.valid_fields
    StreamingSettings.of_payload (lookupKey data "streaming")
  let rate_limit ← build_dataclass RateLimitSettings.valid_fields
    RateLimitSettings.of_payload (lookupKey data "rate_limit")
  let temporal_attributes ← build_temporal_attributes
    (lookupKey data "temporal_attributes")
  let relationships ← build_relationships (lookupKey data "relationships")
  let extra := data.filter (fun kv => decide (kv.1 ∉ known_keys))
  pure { global_settings := global_settings, companies := companies,
         chart_of_accounts := chart_of_accounts, transactions := transactions,
         output := output, fraud := fraud, banking := banking,
         scenario := scenario, temporal := temporal,
         data_quality := data_quality, graph_export := graph_export,
         audit := audit, streaming := streaming, rate_limit := rate_limit,
         temporal_attributes := temporal_attributes,
         relationships := relationships, extra := extra }

/-- `Config.override(**overrides)`: canonicalize, deep-merge, normalize. -/
def Config.override (c : Config) (overrides : Fields) : Except String Config :=
  let current := c.to_dict
  let merged := deep_merge current overrides
  Config.from_dict merged

/-- One violation reported by `validate_config`. -/
structure ValidationErrorDetail where
  path : String
  message : String
  value : Value

/-- `ConfigValidationError(errors)`: carries the complete list and a
joined message. -/
structure ConfigValidationError where
  errors : List ValidationErrorDetail
  message : String

def ConfigValidationError.ofErrors (errors : List ValidationErrorDetail) :
    ConfigValidationError :=
  { errors := errors,
    message := "Configuration validation failed: " ++
      String.intercalate "; " (errors.map (fun e => e.path ++ ": " ++ e.message)) }

/-- The industry enumeration of `validate_config` (a Python set; only
membership is used). -/
def valid_industries : List String :=
  ["manufacturing", "retail", "financial_services", "healthcare",
   "technology", "professional_services", "energy", "transportation",
   "real_estate", "telecommunications"]

/-- `sorted(valid_industries)`. -/
def sorted_valid_industries : List String :=
  ["energy", "financial_services", "healthcare", "manufacturing",
   "professional_services", "real_estate", "retail", "technology",
   "telecommunications", "transportation"]

/-- A single-quoted Python `repr` of a string (no escaping needed for the
industry names). -/
def pyQuote (s : String) : String :=
  String.singleton (Char.ofNat 39) ++ s ++ String.singleton (Char.ofNat 39)

/-- The Python `repr` of a list of strings, as an f-string embeds it. -/
def pyListRepr (xs : List String) : String :=
  "[" ++ String.intercalate ", " (xs.map pyQuote) ++ "]"

/-- `s.lower()` (character-wise; all industry and complexity names are
ASCII, where Python and Unicode lowercasing agree). -/
def pyLower (s : String) : String := String.mk (s.data.map Char.toLower)

/-- `v < lo or v > hi` on a Python value: `bool`/`int`/`float` compare
numerically, any other operand raises `TypeError`. -/
def numOutside (v : Value) (lo hi : Rat) : Except String Bool :=
  match asNum v with
  | some q => pure (decide (q < lo) || decide (q > hi))
  | none => throw "TypeError: unorderable types"

/-- `payload.get(key, {})` followed by attribute access on the result:
must be a dict (or absent) or the access raises. -/
def sectionDict (payload : Fields) (key : String) : Except String Fields :=
  match getField payload key (Value.vdict []) with
  | Value.vdict m => pure m
  | _ => throw "section value has no attribute get"

/-- The per-company checks of `validate_config`: `code` and `name` must be
truthy; the element must be a mapping for `.get` to work. -/
def company_errors (i : Nat) (company : Value) :
    Except String (List ValidationErrorDetail) :=
  match company with
  | Value.vdict cm =>
      let code := getField cm "code" Value.vnone
      let nameV := getField cm "name" Value.vnone
      pure
        ((if truthy code then [] else
            [{ path := "companies[" ++ toString i ++ "].code",
               message := "is required", value := code }]) ++
         (if truthy nameV then [] else
            [{ path := "companies[" ++ toString i ++ "].name",
               message := "is required", value := nameV }]))
  | _ => throw "company has no attribute get"

/-- `validate_config(config)`: walks the canonical mapping and accumulates
every violation; a `TypeError`-style failure of a check is an `Except`
error. -/
def validate_config (config : Config) : Except String (List ValidationErrorDetail) := do
  let payload := config.to_dict
  let errors : List ValidationErrorDetail := []
  let global_settings ← sectionDict payload "global"
  let errors ←
    match getField global_settings "period_months" Value.vnone with
    | Value.vnone => pure errors
    | v => do
        let bad ← numOutside v 1 120
        pure (if bad then
          errors ++ [{ path := "global.period_months",
                       message := "must be between 1 and 120", value := v }]
          else errors)
  let errors ←
    match getField global_settings "industry" Value.vnone with
    | Value.vnone => pure errors
    | Value.vstr s =>
        pure (if (pyLower s ∈ valid_industries : Bool) then errors else
          errors ++ [{ path := "global.industry",
                       message := "must be one of " ++ pyListRepr sorted_valid_industries,
                       value := Value.vstr s }])
    | _ => throw "industry has no attribute lower"
  let errors ←
    match getField payload "companies" (Value.vlist []) with
    | Value.vlist cs => do
        let errors :=
          if cs.length < 1 then
            errors ++ [{ path := "companies",
                         message := "must have at least one company",
                         value := Value.vint cs.length }]
          else errors
        let per ← cs.enum.mapM (fun p => company_errors p.1 p.2)
        pure (errors ++ per.flatten)
    | _ => pure errors
  let coa ← sectionDict payload "chart_of_accounts"
  let errors ←
    match getField coa "complexity" Value.vnone with
    | Value.vnone => pure errors
    | Value.vstr s =>
        pure (if (pyLower s ∈ ["small", "medium", "large"] : Bool) then errors else
          errors ++ [{ path := "chart_of_accounts.complexity",
                       message := "must be small, medium, or large",
                       value := Value.vstr s }])
    | _ => throw "complexity has no attribute lower"
  let fraud ← sectionDict payload "fraud"
  let errors ←
    match getField fraud "rate" Value.vnone with
    | Value.vnone => pure errors
    | v => do
        let bad ← numOutside v 0 1
        pure (if bad then
          errors ++ [{ path := "fraud.rate",
                       message := "must be between 0 and 1", value := v }]
          else errors)
  let transactions ← sectionDict payload "transactions"
  let errors ←
    match getField transactions "anomaly_rate" Value.vnone with
    | Value.vnone => pure errors
    | v => do
        let bad ← numOutside v 0 1
        pure (if bad then
          errors ++ [{ path := "transactions.anomaly_rate",
                       message := "must be between 0 and 1", value := v }]
          else errors)
  pure errors

/-- A raisable outcome of `Config.validate`: a mid-pass `TypeError` or the
final `ConfigValidationError`. -/
inductive PyError where
  | typeError (msg : String)
  | configValidationError (e : ConfigValidationError)

/-- `Config.validate()`: raises a single `ConfigValidationError` carrying
the complete violation list, only after the full pass. -/
def Config.validate (c : Config) : Except PyError Unit := do
  let errors ← (validate_config c).mapError PyError.typeError
  if errors.isEmpty then pure ()
  else throw (PyError.configValidationError (ConfigValidationError.ofErrors errors))

mutual

/-- Plain Python data, as a real `dict`-based payload always is: no
dataclass instances inside, and every dict has pairwise-distinct keys
(an association-list artifact: a Python dict cannot repeat a key). -/
def Value.pyData : Value → Bool
  | Value.vnone => true
  | Value.vbool _ => true
  | Value.vint _ => true
  | Value.vrat _ => true
  | Value.vstr _ => true
  | Value.vlist xs => pyDataList xs
  | Value.vdict fs => decide (keysOf fs).Nodup && pyDataFields fs
  | Value.vdc _ => false

def pyDataList : List Value → Bool
  | [] => true
  | v :: rest => v.pyData && pyDataList rest

def pyDataFields : Fields → Bool
  | [] => true
  | (_, v) :: rest => v.pyData && pyDataFields rest

end

/-- Conditions under which one company dict round-trips: no field may be
`None` (a `None` required field would be stripped and missing at rebuild,
a `None` defaulted field would come back as the default). -/
def CompanyConfig.WF (c : CompanyConfig) : Prop :=
  c.code ≠ Value.vnone ∧ c.name ≠ Value.vnone ∧ c.currency ≠ Value.vnone ∧
  c.country ≠ Value.vnone ∧ c.annual_transaction_volume ≠ Value.vnone ∧
  c.volume_weight ≠ Value.vnone ∧ c.fiscal_year_variant ≠ Value.vnone

/-- Conditions under which an output section round-trips: the compression
fields are folded into a nested object `from_dict` never reads back, and
an otherwise-empty section is dropped. -/
def OutputSettings.WF (o : OutputSettings) : Prop :=
  o.compression_enabled = Value.vnone ∧ o.compression_level = Value.vnone ∧
  (o.output_directory ≠ Value.vnone ∨ o.formats ≠ Value.vnone)

/-- A fraud section with both fields unset is dropped by `to_dict`. -/
def FraudSettings.WF (f : FraudSettings) : Prop :=
  f.enabled ≠ Value.vnone ∨ f.rate ≠ Value.vnone

def BankingSettings.WF (b : BankingSettings) : Prop := b.enabled ≠ Value.vnone

def ScenarioSettings.WF (s : ScenarioSettings) : Prop :=
  s.ml_training ≠ Value.vnone

/-- Fields with a non-`None` class default must not be `None`, or the
rebuild restores the default instead. -/
def TemporalDriftSettings.WF (t : TemporalDriftSettings) : Prop :=
  t.enabled ≠ Value.vnone ∧ t.amount_mean_drift ≠ Value.vnone ∧
  t.amount_variance_drift ≠ Value.vnone ∧ t.anomaly_rate_drift ≠ Value.vnone ∧
  t.concept_drift_rate ≠ Value.vnone ∧ t.drift_type ≠ Value.vnone ∧
  t.seasonal_drift ≠ Value.vnone

def DataQualitySettings.WF (d : DataQualitySettings) : Prop :=
  d.enabled ≠ Value.vnone ∧ d.missing_rate ≠ Value.vnone ∧
  d.typo_rate ≠ Value.vnone ∧ d.format_variation_rate ≠ Value.vnone ∧
  d.duplicate_rate ≠ Value.vnone ∧ d.encoding_issue_rate ≠ Value.vnone

def GraphExportSettings.WF (g : GraphExportSettings) : Prop :=
  g.enabled ≠ Value.vnone ∧ g.train_ratio ≠ Value.vnone ∧
  g.validation_ratio ≠ Value.vnone ∧ g.output_subdirectory ≠ Value.vnone

def AuditSettings.WF (a : AuditSettings) : Prop :=
  a.enabled ≠ Value.vnone ∧ a.engagements ≠ Value.vnone ∧
  a.workpapers_per_engagement ≠ Value.vnone ∧
  a.evidence_per_workpaper ≠ Value.vnone ∧
  a.risks_per_engagement ≠ Value.vnone ∧
  a.findings_per_engagement ≠ Value.vnone

def StreamingSettings.WF (s : StreamingSettings) : Prop :=
  s.enabled ≠ Value.vnone ∧ s.buffer_size ≠ Value.vnone ∧
  s.enable_progress ≠ Value.vnone ∧ s.progress_interval ≠ Value.vnone ∧
  s.backpressure ≠ Value.vnone

def RateLimitSettings.WF (r : RateLimitSettings) : Prop :=
  r.enabled ≠ Value.vnone ∧ r.entities_per_second ≠ Value.vnone ∧
  r.burst_size ≠ Value.vnone ∧ r.backpressure ≠ Value.vnone

def ValidTimeSettings.WF (v : ValidTimeSettings) : Prop :=
  v.closed_probability ≠ Value.vnone ∧ v.avg_validity_days ≠ Value.vnone ∧
  v.validity_stddev_days ≠ Value.vnone

def TransactionTimeSettings.WF (t : TransactionTimeSettings) : Prop :=
  t.avg_recording_delay_seconds ≠ Value.vnone ∧
  t.allow_backdating ≠ Value.vnone ∧
  t.backdating_probability ≠ Value.vnone

def TemporalAttributeSettings.WF (ta : TemporalAttributeSettings) : Prop :=
  (∀ vt ∈ ta.valid_time, vt.WF) ∧ (∀ tt ∈ ta.transaction_time, tt.WF)

/-- A `min`/`max` bound survives only when truthy (zero is dropped). -/
def CardinalityRule.WF (cd : CardinalityRule) : Prop :=
  (truthy cd.min_count = true ∨ cd.min_count = Value.vnone) ∧
  (truthy cd.max_count = true ∨ cd.max_count = Value.vnone)

def RelationshipTypeConfig.WF (rt : RelationshipTypeConfig) : Prop :=
  ∀ cd ∈ rt.cardinality, cd.WF

/-- An empty relationship-type list is emitted but read back as unset
(the rebuild guards it with a truthiness test). -/
def RelationshipSettings.WF (r : RelationshipSettings) : Prop :=
  r.relationship_types ≠ some [] ∧
  ∀ l ∈ r.relationship_types, ∀ rt ∈ l, rt.WF

/-- The class of trees `normalize ∘ canonicalize` reproduces exactly:
no transactions section (never canonicalized), output/fraud sections that
survive their sparseness guards, no `None` stored in a field whose class
default is not `None`, truthy-or-unset cardinality bounds, a non-empty
relationship-type list, and an extra bag that is a genuine dict whose keys
avoid the sixteen section names. -/
def Config.RoundTripWF (t : Config) : Prop :=
  (∀ cs ∈ t.companies, ∀ c ∈ cs, c.WF) ∧
  t.transactions = none ∧
  (∀ o ∈ t.output, o.WF) ∧
  (∀ f ∈ t.fraud, f.WF) ∧
  (∀ b ∈ t.banking, b.WF) ∧
  (∀ s ∈ t.scenario, s.WF) ∧
  (∀ td ∈ t.temporal, td.WF) ∧
  (∀ dq ∈ t.data_quality, dq.WF) ∧
  (∀ ge ∈ t.graph_export, ge.WF) ∧
  (∀ a ∈ t.audit, a.WF) ∧
  (∀ st ∈ t.streaming, st.WF) ∧
  (∀ rl ∈ t.rate_limit, rl.WF) ∧
  (∀ ta ∈ t.temporal_attributes, ta.WF) ∧
  (∀ r ∈ t.relationships, r.WF) ∧
  (∀ kv ∈ t.extra, kv.1 ∉ known_keys) ∧
  (keysOf t.extra).Nodup

/-! Concrete trees used by the claim theorems below. -/

/-- A tree whose transactions section is explicitly set: `to_dict` drops it. -/
def cfgTx : Config := { transactions := some { anomaly_rate := Value.vrat (1/2) } }

def cfgW1 : Config :=
  { global_settings := some { industry := Value.vstr "retail" },
    fraud := some { enabled := Value.vbool true, rate := Value.vrat (1/10) } }

def rtW2 : RelationshipTypeConfig :=
  { name := Value.vstr "owns", source_type := Value.vstr "company",
    target_type := Value.vstr "account",
    cardinality := some { rule_type := Value.vstr "one_to_many", min_count := Value.vint 1 } }

def relW2 : RelationshipSettings :=
  { enabled := Value.vbool true, relationship_types := some [rtW2] }

def cfgW2 : Config :=
  { global_settings := some { industry := Value.vstr "retail", period_months := Value.vint 12 },
    companies := some [{ code := Value.vstr "C001", name := Value.vstr "Test Company" }],
    chart_of_accounts := some { complexity := Value.vstr "small" },
    output := some { output_directory := Value.vstr "out" },
    fraud := some { rate := Value.vrat (1/10) },
    banking := some { enabled := Value.vbool true },
    scenario := some { profile := Value.vstr "demo" },
    temporal := some {},
    data_quality := some {},
    graph_export := some {},
    audit := some {},
    streaming := some {},
    rate_limit := some {},
    temporal_attributes := some { enabled := Value.vbool true, valid_time := some {} },
    relationships := some relW2,
    extra := [("custom_key", Value.vint 7)] }

def fraudAllNone : FraudSettings := {}

def outputAllNone : OutputSettings := {}

def bankingAllNone : BankingSettings := { enabled := Value.vnone }

def scenarioAllNone : ScenarioSettings := { ml_training := Value.vnone }

def temporalAllNone : TemporalDriftSettings :=
  { enabled := Value.vnone, amount_mean_drift := Value.vnone,
    amount_variance_drift := Value.vnone, anomaly_rate_drift := Value.vnone,
    concept_drift_rate := Value.vnone, drift_type := Value.vnone,
    seasonal_drift := Value.vnone }

def dataQualityAllNone : DataQualitySettings :=
  { enabled := Value.vnone, missing_rate := Value.vnone, typo_rate := Value.vnone,
    format_variation_rate := Value.vnone, duplicate_rate := Value.vnone,
    encoding_issue_rate := Value.vnone }

def graphExportAllNone : GraphExportSettings :=
  { enabled := Value.vnone, train_ratio := Value.vnone,
    validation_ratio := Value.vnone, output_subdirectory := Value.vnone }

def auditAllNone : AuditSettings :=
  { enabled := Value.vnone, engagements := Value.vnone,
    workpapers_per_engagement := Value.vnone, evidence_per_workpaper := Value.vnone,
    risks_per_engagement := Value.vnone, findings_per_engagement := Value.vnone }

def streamingAllNone : StreamingSettings :=
  { enabled := Value.vnone, buffer_size := Value.vnone,
    enable_progress := Value.vnone, progress_interval := Value.vnone,
    backpressure := Value.vnone }

def rateLimitAllNone : RateLimitSettings :=
  { enabled := Value.vnone, entities_per_second := Value.vnone,
    burst_size := Value.vnone, backpressure := Value.vnone }

/-- The claim's canonical per-section instance: only a fraud section,
present with all fields unset. -/
def cfgFraudOnly : Config := { fraud := some fraudAllNone }

/-- Legacy mapping with both `count` and `industry` missing and no
`global` section. -/
def dataC10a : Fields := [("companies", Value.vdict [])]

def cfgC10a : Config :=
  { global_settings := some { industry := Value.vstr "retail" },
    companies := some [{ code := Value.vstr "C001", name := Value.vstr "Company 1" }] }

/-- Legacy mapping with `count` present, `industry` missing, and a
`global` section present but without an industry. -/
def dataC10b : Fields :=
  [("global", Value.vdict [("start_date", Value.vstr "2024-01-01")]),
   ("companies", Value.vdict [("count", Value.vint 2)])]

def cfgC10b : Config :=
  { global_settings := some { industry := Value.vstr "retail",
                              start_date := Value.vstr "2024-01-01" },
    companies := some [{ code := Value.vstr "C001", name := Value.vstr "Company 1" },
                       { code := Value.vstr "C002", name := Value.vstr "Company 2" }] }

/-- The tree of the claim's validation-completeness example: three
independent violations. -/
def cfgThree : Config :=
  { global_settings := some { period_months := Value.vint 0, industry := Value.vstr "bogus" },
    companies := some [] }

/-- Base tree for the override-non-destructiveness example: both fraud
fields are explicitly set. -/
def cfgFraudBase : Config :=
  { fraud := some { enabled := Value.vbool true, rate := Value.vrat (1/10) } }

/-- Extra-bag collision with an emitted section key: the blind
`payload.update(extra)` silently overwrites the canonical `fraud` entry. -/
def cfgClash : Config :=
  { fraud := some { enabled := Value.vbool true },
    extra := [("fraud", Value.vstr "boom")] }

def dataC8 : Fields :=
  [("fraud", Value.vdict [("rate", Value.vrat (1/2))]), ("zz", Value.vint 3)]

def cfgC8 : Config :=
  { fraud := some { rate := Value.vrat (1/2) }, extra := [("zz", Value.vint 3)] }

/-- A tree that is fully valid except that `transactions.anomaly_rate` is
explicitly 5.0, far outside `[0, 1]`. -/
def cfgAnomaly : Config :=
  { global_settings := some { industry := Value.vstr "retail", period_months := Value.vint 12 },
    companies := some [{ code := Value.vstr "C001", name := Value.vstr "Test Company" }],
    transactions := some { anomaly_rate := Value.vrat 5 } }

/-! Association-list (Python dict) lemmas. -/

@[simp] lemma lookupKey_nil (key : String) : lookupKey [] key = none := rfl

@[simp] lemma lookupKey_cons (k : String) (v : Value) (rest : Fields) (key : String) :
    lookupKey ((k, v) :: rest) key = if k = key then some v else lookupKey rest key := rfl

@[simp] lemma lookupKey_append (A B : Fields) (key : String) :
    lookupKey (A ++ B) key = (lookupKey A key).orElse (fun _ => lookupKey B key) := by
  induction A with
  | nil => simp
  | cons kv rest ih => obtain ⟨k, v⟩ := kv; by_cases h : k = key <;> simp [h, ih]

@[simp] lemma lookupKey_entryIf (key : String) (v : Option Value) (k : String) :
    lookupKey (entryIf key v) k = if key = k then v else none := by
  cases v <;> by_cases h : key = k <;> simp [entryIf, h]

@[simp] lemma keysOf_nil : keysOf [] = [] := rfl

@[simp] lemma keysOf_cons (k : String) (v : Value) (rest : Fields) :
    keysOf ((k, v) :: rest) = k :: keysOf rest := rfl

@[simp] lemma keysOf_append (A B : Fields) : keysOf (A ++ B) = keysOf A ++ keysOf B := by
  simp [keysOf]

lemma lookupKey_eq_none_of_not_mem {m : Fields} {key : String}
    (h : key ∉ keysOf m) : lookupKey m key = none := by
  induction m with
  | nil => rfl
  | cons kv rest ih =>
      obtain ⟨k, v⟩ := kv
      simp only [keysOf_cons, List.mem_cons] at h
      push_neg at h
      simp [Ne.symm h.1, ih h.2]

lemma lookupKey_of_mem_nodup {m : Fields} {k : String} {v : Value}
    (hn : (keysOf m).Nodup) (hm : (k, v) ∈ m) : lookupKey m k = some v := by
  induction m with
  | nil => cases hm
  | cons kv rest ih =>
      obtain ⟨k', v'⟩ := kv
      simp only [keysOf_cons, List.nodup_cons] at hn
      rcases List.mem_cons.mp hm with h | h
      · obtain ⟨rfl, rfl⟩ := Prod.mk.injEq .. ▸ h
        simp_all
      · have hk : ¬ k' = k := by
          rintro rfl
          exact hn.1 (by simpa [keysOf] using List.mem_map_of_mem Prod.fst h)
        simp [hk, ih hn.2 h]

lemma setKey_of_lookup_self {d : Fields} {k : String} {v : Value}
    (h : lookupKey d k = some v) : setKey d k v = d := by
  induction d with
  | nil => simp at h
  | cons kv rest ih =>
      obtain ⟨k', v'⟩ := kv
      by_cases hk : k' = k
      · subst hk
        simp at h
        simp [setKey, h]
      · simp only [lookupKey_cons, if_neg hk] at h
        simp [setKey, hk, ih h]

lemma setKey_of_not_mem {d : Fields} {k : String} (v : Value)
    (h : k ∉ keysOf d) : setKey d k v = d ++ [(k, v)] := by
  induction d with
  | nil => rfl
  | cons kv rest ih =>
      obtain ⟨k', v'⟩ := kv
      simp only [keysOf_cons, List.mem_cons] at h
      push_neg at h
      simp [setKey, h.1.symm, ih h.2]

lemma lookupKey_setKey_ne {d : Fields} {k' k : String} (v : Value)
    (h : ¬ k' = k) : lookupKey (setKey d k' v) k = lookupKey d k := by
  induction d with
  | nil => simp [setKey, h]
  | cons kv rest ih =>
      obtain ⟨k0, v0⟩ := kv
      by_cases h0 : k0 = k'
      · subst h0; simp [setKey, h]
      · simp only [setKey, if_neg h0]
        by_cases h1 : k0 = k <;> simp [h1, ih]

@[simp] lemma updateDict_nil (d : Fields) : updateDict d [] = d := rfl

lemma updateDict_cons (d : Fields) (k : String) (v : Value) (e : Fields) :
    updateDict d ((k, v) :: e) = updateDict (setKey d k v) e := rfl

lemma lookupKey_updateDict_not_mem {d e : Fields} {k : String}
    (h : k ∉ keysOf e) : lookupKey (updateDict d e) k = lookupKey d k := by
  induction e generalizing d with
  | nil => rfl
  | cons kv rest ih =>
      obtain ⟨k', v'⟩ := kv
      simp only [keysOf_cons, List.mem_cons] at h
      push_neg at h
      rw [updateDict_cons, ih h.2, lookupKey_setKey_ne _ h.1.symm]

lemma updateDict_eq_append {d e : Fields}
    (hd : ∀ kv ∈ e, kv.1 ∉ keysOf d) (hn : (keysOf e).Nodup) :
    updateDict d e = d ++ e := by
  induction e generalizing d with
  | nil => simp
  | cons kv rest ih =>
      obtain ⟨k, v⟩ := kv
      simp only [keysOf_cons, List.nodup_cons] at hn
      rw [updateDict_cons, setKey_of_not_mem v (hd (k, v) (by simp))]
      rw [ih (d := d ++ [(k, v)]) ?_ hn.2]
      · simp
      · intro kv' hkv'
        simp only [keysOf_append, List.mem_append, keysOf_cons, keysOf_nil,
          List.mem_singleton, not_or]
        refine ⟨hd kv' (by simp [hkv']), ?_⟩
        rintro rfl
        exact hn.1 (by simpa [keysOf] using List.mem_map_of_mem Prod.fst hkv')

/-! Lemmas about `_strip_none` and rebuild defaults. -/

@[simp] lemma strip_none_nil : strip_none [] = [] := rfl

lemma lookupKey_strip_cons_ne (k key : String) (v : Value) (rest : Fields)
    (h : ¬ k = key) :
    lookupKey (strip_none ((k, v) :: rest)) key = lookupKey (strip_none rest) key := by
  cases v <;> simp [strip_none, h]

lemma lookupKey_strip_cons_self (key : String) (v : Value) (rest : Fields) :
    lookupKey (strip_none ((key, v) :: rest)) key =
      if v matches Value.vnone then lookupKey (strip_none rest) key else some v := by
  cases v <;> simp [strip_none]

/-- A stripped `None`-defaulted field rebuilds to its original value. -/
lemma getD_strip (v : Value) :
    (if v matches Value.vnone then (none : Option Value) else some v).getD
      Value.vnone = v := by
  cases v <;> rfl

/-- A stripped field with any rebuild default is restored when not `None`. -/
lemma getD_strip_ne (v d : Value) (h : v ≠ Value.vnone) :
    (if v matches Value.vnone then (none : Option Value) else some v).getD d = v := by
  cases v <;> first | rfl | exact absurd rfl h

/-- A key absent from a dict is absent from any filtered view of it. -/
lemma lookupKey_filter_none {m : Fields} {k : String} (p : String × Value → Bool)
    (h : lookupKey m k = none) : lookupKey (m.filter p) k = none := by
  induction m with
  | nil => rfl
  | cons kv rest ih =>
      obtain ⟨k2, v⟩ := kv
      by_cases hk : k2 = k
      · subst hk; simp at h
      · simp only [lookupKey_cons, if_neg hk] at h
        by_cases hp : p (k2, v) = true
        · simp [List.filter_cons, hp, hk, ih h]
        · simp [List.filter_cons, hp, ih h]

lemma filter_valid_of_keys (fs : Fields) (valid : List String)
    (h : ∀ kv ∈ fs, kv.1 ∈ valid) :
    (strip_none fs).filter (fun kv => decide (kv.1 ∈ valid)) = strip_none fs := by
  apply List.filter_eq_self.mpr
  intro kv hkv
  simpa using h kv (List.mem_of_mem_filter hkv)

lemma strip_none_eq_self (fs : Fields) (h : ∀ kv ∈ fs, kv.2 ≠ Value.vnone) :
    strip_none fs = fs := by
  apply List.filter_eq_self.mpr
  intro kv hkv
  have := h kv hkv
  cases hv : kv.2 <;> simp_all

/-! Lookups into the canonical payload. -/

lemma keysOf_entryIf_sub (key : String) (v : Option Value) {k : String}
    (h : k ∈ keysOf (entryIf key v)) : k = key := by
  cases v with
  | none => simp [entryIf] at h
  | some w => simpa [entryIf, keysOf] using h

lemma keys_sectionPayload_sub {t : Config} {k : String}
    (h : k ∈ keysOf (sectionPayload t)) : k ∈ known_keys := by
  simp only [sectionPayload, keysOf_append, List.mem_append, or_assoc] at h
  rcases h with h|h|h|h|h|h|h|h|h|h|h|h|h|h|h|h <;>
    rw [keysOf_entryIf_sub _ _ h] <;> simp [known_keys]

/-- With a well-formed extra bag, `payload.update(extra)` appends. -/
lemma to_dict_eq_append (t : Config)
    (hx : ∀ kv ∈ t.extra, kv.1 ∉ known_keys) (hn : (keysOf t.extra).Nodup) :
    Config.to_dict t = sectionPayload t ++ t.extra := by
  refine updateDict_eq_append (fun kv hkv hmem => ?_) hn
  exact hx kv hkv (keys_sectionPayload_sub hmem)

lemma lookupKey_known_extra_none {t : Config} {k : String}
    (hx : ∀ kv ∈ t.extra, kv.1 ∉ known_keys) (hk : k ∈ known_keys) :
    lookupKey t.extra k = none := by
  refine lookupKey_eq_none_of_not_mem (fun hmem => ?_)
  obtain ⟨⟨k', v⟩, hm, rfl⟩ := List.mem_map.mp hmem
  exact hx _ hm hk

lemma lookup_to_dict_known (t : Config)
    (hx : ∀ kv ∈ t.extra, kv.1 ∉ known_keys) (hn : (keysOf t.extra).Nodup)
    {k : String} (hk : k ∈ known_keys) :
    lookupKey (Config.to_dict t) k = lookupKey (sectionPayload t) k := by
  rw [to_dict_eq_append t hx hn, lookupKey_append,
    lookupKey_known_extra_none hx hk]
  cases lookupKey (sectionPayload t) k <;> rfl

lemma lookup_sectionPayload_global (c : Config) :
    lookupKey (sectionPayload c) "global" = global_payload c := by
  simp [sectionPayload]

lemma lookup_sectionPayload_companies (c : Config) :
    lookupKey (sectionPayload c) "companies" = companies_payload c := by
  simp [sectionPayload]

lemma lookup_sectionPayload_chart (c : Config) :
    lookupKey (sectionPayload c) "chart_of_accounts" = chart_of_accounts_payload c := by
  simp [sectionPayload]

lemma lookup_sectionPayload_transactions (c : Config) :
    lookupKey (sectionPayload c) "transactions" = transactions_payload c := by
  simp [sectionPayload]

lemma lookup_sectionPayload_output (c : Config) :
    lookupKey (sectionPayload c) "output" = output_payload c := by
  simp [sectionPayload]

lemma lookup_sectionPayload_fraud (c : Config) :
    lookupKey (sectionPayload c) "fraud" = fraud_payload c := by
  simp [sectionPayload]

lemma lookup_sectionPayload_banking (c : Config) :
    lookupKey (sectionPayload c) "banking" = banking_payload c := by
  simp [sectionPayload]

lemma lookup_sectionPayload_scenario (c : Config) :
    lookupKey (sectionPayload c) "scenario" = scenario_payload c := by
  simp [sectionPayload]

lemma lookup_sectionPayload_temporal (c : Config) :
    lookupKey (sectionPayload c) "temporal" = temporal_payload c := by
  simp [sectionPayload]

lemma lookup_sectionPayload_data_quality (c : Config) :
    lookupKey (sectionPayload c) "data_quality" = data_quality_payload c := by
  simp [sectionPayload]

lemma lookup_sectionPayload_graph_export (c : Config) :
    lookupKey (sectionPayload c) "graph_export" = graph_export_payload c := by
  simp [sectionPayload]

lemma lookup_sectionPayload_audit (c : Config) :
    lookupKey (sectionPayload c) "audit" = audit_payload c := by
  simp [sectionPayload]

lemma lookup_sectionPayload_streaming (c : Config) :
    lookupKey (sectionPayload c) "streaming" = streaming_payload c := by
  simp [sectionPayload]

lemma lookup_sectionPayload_rate_limit (c : Config) :
    lookupKey (sectionPayload c) "rate_limit" = rate_limit_payload c := by
  simp [sectionPayload]

lemma lookup_sectionPayload_temporal_attributes (c : Config) :
    lookupKey (sectionPayload c) "temporal_attributes" = temporal_attributes_payload c := by
  simp [sectionPayload]

lemma lookup_sectionPayload_relationships (c : Config) :
    lookupKey (sectionPayload c) "relationships" = relationships_payload c := by
  simp [sectionPayload]

/-! Per-section rebuild lemmas: parsing a section payload emitted by
`to_dict` restores the section. -/

lemma build_global_round (g : GlobalSettings) :
    build_dataclass GlobalSettings.valid_fields GlobalSettings.of_payload
      (some (Value.vdict (strip_none g.fields))) = Except.ok (some g) := by
  have hf : (strip_none g.fields).filter
      (fun kv => decide (kv.1 ∈ GlobalSettings.valid_fields)) = strip_none g.fields := by
    refine filter_valid_of_keys _ _ (fun kv hkv => ?_)
    simp only [GlobalSettings.fields, List.mem_cons, List.not_mem_nil, or_false] at hkv
    rcases hkv with rfl|rfl|rfl|rfl|rfl|rfl|rfl|rfl <;> simp [GlobalSettings.valid_fields]
  simp only [build_dataclass, hf]
  suffices h : GlobalSettings.of_payload (strip_none g.fields) = g by rw [h]; rfl
  obtain ⟨i, sd, pm, se, gc, pa, wt, ml⟩ := g
  simp [GlobalSettings.of_payload, GlobalSettings.fields, getField,
    lookupKey_strip_cons_ne, lookupKey_strip_cons_self, getD_strip]

lemma build_chart_round (x : ChartOfAccountsSettings) :
    build_dataclass ChartOfAccountsSettings.valid_fields ChartOfAccountsSettings.of_payload
      (some (Value.vdict (strip_none x.fields))) = Except.ok (some x) := by
  have hf : (strip_none x.fields).filter
      (fun kv => decide (kv.1 ∈ ChartOfAccountsSettings.valid_fields)) = strip_none x.fields := by
    refine filter_valid_of_keys _ _ (fun kv hkv => ?_)
    simp only [ChartOfAccountsSettings.fields, List.mem_cons, List.not_mem_nil, or_false] at hkv
    rcases hkv with rfl|rfl <;> simp [ChartOfAccountsSettings.valid_fields]
  simp only [build_dataclass, hf]
  suffices h : ChartOfAccountsSettings.of_payload (strip_none x.fields) = x by rw [h]; rfl
  obtain ⟨cx, isp⟩ := x
  simp [ChartOfAccountsSettings.of_payload, ChartOfAccountsSettings.fields, getField,
    lookupKey_strip_cons_ne, lookupKey_strip_cons_self, getD_strip]

lemma build_fraud_round (x : FraudSettings) :
    build_dataclass FraudSettings.valid_fields FraudSettings.of_payload
      (some (Value.vdict (strip_none x.fields))) = Except.ok (some x) := by
  have hf : (strip_none x.fields).filter
      (fun kv => decide (kv.1 ∈ FraudSettings.valid_fields)) = strip_none x.fields := by
    refine filter_valid_of_keys _ _ (fun kv hkv => ?_)
    simp only [FraudSettings.fields, List.mem_cons, List.not_mem_nil, or_false] at hkv
    rcases hkv with rfl|rfl <;> simp [FraudSettings.valid_fields]
  simp only [build_dataclass, hf]
  suffices h : FraudSettings.of_payload (strip_none x.fields) = x by rw [h]; rfl
  obtain ⟨e, r⟩ := x
  simp [FraudSettings.of_payload, FraudSettings.fields, getField,
    lookupKey_strip_cons_ne, lookupKey_strip_cons_self, getD_strip]

lemma build_banking_round (x : BankingSettings) (hx : x.WF) :
    build_dataclass BankingSettings.valid_fields BankingSettings.of_payload
      (some (Value.vdict (strip_none x.fields))) = Except.ok (some x) := by
  have hf : (strip_none x.fields).filter
      (fun kv => decide (kv.1 ∈ BankingSettings.valid_fields)) = strip_none x.fields := by
    refine filter_valid_of_keys _ _ (fun kv hkv => ?_)
    simp only [BankingSettings.fields, List.mem_cons, List.not_mem_nil, or_false] at hkv
    rcases hkv with rfl|rfl|rfl|rfl|rfl|rfl <;> simp [BankingSettings.valid_fields]
  simp only [build_dataclass, hf]
  suffices h : BankingSettings.of_payload (strip_none x.fields) = x by rw [h]; rfl
  obtain ⟨e, rc, bc, tr, ty, sp⟩ := x
  simp only [BankingSettings.WF] at hx
  simp [BankingSettings.of_payload, BankingSettings.fields, getField,
    lookupKey_strip_cons_ne, lookupKey_strip_cons_self, getD_strip,
    getD_strip_ne _ _ hx]

lemma build_scenario_round (x : ScenarioSettings) (hx : x.WF) :
    build_dataclass ScenarioSettings.valid_fields ScenarioSettings.of_payload
      (some (Value.vdict (strip_none x.fields))) = Except.ok (some x) := by
  have hf : (strip_none x.fields).filter
      (fun kv => decide (kv.1 ∈ ScenarioSettings.valid_fields)) = strip_none x.fields := by
    refine filter_valid_of_keys _ _ (fun kv hkv => ?_)
    simp only [ScenarioSettings.fields, List.mem_cons, List.not_mem_nil, or_false] at hkv
    rcases hkv with rfl|rfl|rfl|rfl|rfl|rfl <;> simp [ScenarioSettings.valid_fields]
  simp only [build_dataclass, hf]
  suffices h : ScenarioSettings.of_payload (strip_none x.fields) = x by rw [h]; rfl
  obtain ⟨tg, pf, mt, ta, de, md⟩ := x
  simp only [ScenarioSettings.WF] at hx
  simp [ScenarioSettings.of_payload, ScenarioSettings.fields, getField,
    lookupKey_strip_cons_ne, lookupKey_strip_cons_self, getD_strip,
    getD_strip_ne _ _ hx]

lemma build_temporal_round (x : TemporalDriftSettings) (hx : x.WF) :
    build_dataclass TemporalDriftSettings.valid_fields TemporalDriftSettings.of_payload
      (some (Value.vdict (strip_none x.fields))) = Except.ok (some x) := by
  have hf : (strip_none x.fields).filter
      (fun kv => decide (kv.1 ∈ TemporalDriftSettings.valid_fields)) = strip_none x.fields := by
    refine filter_valid_of_keys _ _ (fun kv hkv => ?_)
    simp only [TemporalDriftSettings.fields, List.mem_cons, List.not_mem_nil, or_false] at hkv
    rcases hkv with rfl|rfl|rfl|rfl|rfl|rfl|rfl|rfl <;> simp [TemporalDriftSettings.valid_fields]
  simp only [build_dataclass, hf]
  suffices h : TemporalDriftSettings.of_payload (strip_none x.fields) = x by rw [h]; rfl
  obtain ⟨e, amd, avd, ard, cdr, dt, sd, dsp⟩ := x
  obtain ⟨h1, h2, h3, h4, h5, h6, h7⟩ := hx
  simp [TemporalDriftSettings.of_payload, TemporalDriftSettings.fields, getField,
    lookupKey_strip_cons_ne, lookupKey_strip_cons_self, getD_strip,
    getD_strip_ne _ _ h1, getD_strip_ne _ _ h2, getD_strip_ne _ _ h3,
    getD_strip_ne _ _ h4, getD_strip_ne _ _ h5, getD_strip_ne _ _ h6,
    getD_strip_ne _ _ h7]

lemma build_data_quality_round (x : DataQualitySettings) (hx : x.WF) :
    build_dataclass DataQualitySettings.valid_fields DataQualitySettings.of_payload
      (some (Value.vdict (strip_none x.fields))) = Except.ok (some x) := by
  have hf : (strip_none x.fields).filter
      (fun kv => decide (kv.1 ∈ DataQualitySettings.valid_fields)) = strip_none x.fields := by
    refine filter_valid_of_keys _ _ (fun kv hkv => ?_)
    simp only [DataQualitySettings.fields, List.mem_cons, List.not_mem_nil, or_false] at hkv
    rcases hkv with rfl|rfl|rfl|rfl|rfl|rfl <;> simp [DataQualitySettings.valid_fields]
  simp only [build_dataclass, hf]
  suffices h : DataQualitySettings.of_payload (strip_none x.fields) = x by rw [h]; rfl
  obtain ⟨e, mr, tr, fvr, dr, er⟩ := x
  obtain ⟨h1, h2, h3, h4, h5, h6⟩ := hx
  simp [DataQualitySettings.of_payload, DataQualitySettings.fields, getField,
    lookupKey_strip_cons_ne, lookupKey_strip_cons_self, getD_strip,
    getD_strip_ne _ _ h1, getD_strip_ne _ _ h2, getD_strip_ne _ _ h3,
    getD_strip_ne _ _ h4, getD_strip_ne _ _ h5, getD_strip_ne _ _ h6]

lemma build_graph_export_round (x : GraphExportSettings) (hx : x.WF) :
    build_dataclass GraphExportSettings.valid_fields GraphExportSettings.of_payload
      (some (Value.vdict (strip_none x.fields))) = Except.ok (some x) := by
  have hf : (strip_none x.fields).filter
      (fun kv => decide (kv.1 ∈ GraphExportSettings.valid_fields)) = strip_none x.fields := by
    refine filter_valid_of_keys _ _ (fun kv hkv => ?_)
    simp only [GraphExportSettings.fields, List.mem_cons, List.not_mem_nil, or_false] at hkv
    rcases hkv with rfl|rfl|rfl|rfl|rfl|rfl <;> simp [GraphExportSettings.valid_fields]
  simp only [build_dataclass, hf]
  suffices h : GraphExportSettings.of_payload (strip_none x.fields) = x by rw [h]; rfl
  obtain ⟨e, fo, gt, tr, vr, os⟩ := x
  obtain ⟨h1, h2, h3, h4⟩ := hx
  simp [GraphExportSettings.of_payload, GraphExportSettings.fields, getField,
    lookupKey_strip_cons_ne, lookupKey_strip_cons_self, getD_strip,
    getD_strip_ne _ _ h1, getD_strip_ne _ _ h2, getD_strip_ne _ _ h3,
    getD_strip_ne _ _ h4]

lemma build_audit_round (x : AuditSettings) (hx : x.WF) :
    build_dataclass AuditSettings.valid_fields AuditSettings.of_payload
      (some (Value.vdict (strip_none x.fields))) = Except.ok (some x) := by
  have hf : (strip_none x.fields).filter
      (fun kv => decide (kv.1 ∈ AuditSettings.valid_fields)) = strip_none x.fields := by
    refine filter_valid_of_keys _ _ (fun kv hkv => ?_)
    simp only [AuditSettings.fields, List.mem_cons, List.not_mem_nil, or_false] at hkv
    rcases hkv with rfl|rfl|rfl|rfl|rfl|rfl <;> simp [AuditSettings.valid_fields]
  simp only [build_dataclass, hf]
  suffices h : AuditSettings.of_payload (strip_none x.fields) = x by rw [h]; rfl
  obtain ⟨e, en, wp, ev, ri, fi⟩ := x
  obtain ⟨h1, h2, h3, h4, h5, h6⟩ := hx
  simp [AuditSettings.of_payload, AuditSettings.fields, getField,
    lookupKey_strip_cons_ne, lookupKey_strip_cons_self, getD_strip,
    getD_strip_ne _ _ h1, getD_strip_ne _ _ h2, getD_strip_ne _ _ h3,
    getD_strip_ne _ _ h4, getD_strip_ne _ _ h5, getD_strip_ne _ _ h6]

lemma build_streaming_round (x : StreamingSettings) (hx : x.WF) :
    build_dataclass StreamingSettings.valid_fields StreamingSettings.of_payload
      (some (Value.vdict (strip_none x.fields))) = Except.ok (some x) := by
  have hf : (strip_none x.fields).filter
      (fun kv => decide (kv.1 ∈ StreamingSettings.valid_fields)) = strip_none x.fields := by
    refine filter_valid_of_keys _ _ (fun kv hkv => ?_)
    simp only [StreamingSettings.fields, List.mem_cons, List.not_mem_nil, or_false] at hkv
    rcases hkv with rfl|rfl|rfl|rfl|rfl <;> simp [StreamingSettings.valid_fields]
  simp only [build_dataclass, hf]
  suffices h : StreamingSettings.of_payload (strip_none x.fields) = x by rw [h]; rfl
  obtain ⟨e, bs, ep, pi, bp⟩ := x
  obtain ⟨h1, h2, h3, h4, h5⟩ := hx
  simp [StreamingSettings.of_payload, StreamingSettings.fields, getField,
    lookupKey_strip_cons_ne, lookupKey_strip_cons_self, getD_strip,
    getD_strip_ne _ _ h1, getD_strip_ne _ _ h2, getD_strip_ne _ _ h3,
    getD_strip_ne _ _ h4, getD_strip_ne _ _ h5]

lemma build_rate_limit_round (x : RateLimitSettings) (hx : x.WF) :
    build_dataclass RateLimitSettings.valid_fields RateLimitSettings.of_payload
      (some (Value.vdict (strip_none x.fields))) = Except.ok (some x) := by
  have hf : (strip_none x.fields).filter
      (fun kv => decide (kv.1 ∈ RateLimitSettings.valid_fields)) = strip_none x.fields := by
    refine filter_valid_of_keys _ _ (fun kv hkv => ?_)
    simp only [RateLimitSettings.fields, List.mem_cons, List.not_mem_nil, or_false] at hkv
    rcases hkv with rfl|rfl|rfl|rfl <;> simp [RateLimitSettings.valid_fields]
  simp only [build_dataclass, hf]
  suffices h : RateLimitSettings.of_payload (strip_none x.fields) = x by rw [h]; rfl
  obtain ⟨e, es, bs, bp⟩ := x
  obtain ⟨h1, h2, h3, h4⟩ := hx
  simp [RateLimitSettings.of_payload, RateLimitSettings.fields, getField,
    lookupKey_strip_cons_ne, lookupKey_strip_cons_self, getD_strip,
    getD_strip_ne _ _ h1, getD_strip_ne _ _ h2, getD_strip_ne _ _ h3,
    getD_strip_ne _ _ h4]

lemma build_valid_time_round (x : ValidTimeSettings) (hx : x.WF) :
    build_dataclass ValidTimeSettings.valid_fields ValidTimeSettings.of_payload
      (some (Value.vdict (strip_none x.fields))) = Except.ok (some x) := by
  have hf : (strip_none x.fields).filter
      (fun kv => decide (kv.1 ∈ ValidTimeSettings.valid_fields)) = strip_none x.fields := by
    refine filter_valid_of_keys _ _ (fun kv hkv => ?_)
    simp only [ValidTimeSettings.fields, List.mem_cons, List.not_mem_nil, or_false] at hkv
    rcases hkv with rfl|rfl|rfl <;> simp [ValidTimeSettings.valid_fields]
  simp only [build_dataclass, hf]
  suffices h : ValidTimeSettings.of_payload (strip_none x.fields) = x by rw [h]; rfl
  obtain ⟨cp, av, vs⟩ := x
  obtain ⟨h1, h2, h3⟩ := hx
  simp [ValidTimeSettings.of_payload, ValidTimeSettings.fields, getField,
    lookupKey_strip_cons_ne, lookupKey_strip_cons_self, getD_strip,
    getD_strip_ne _ _ h1, getD_strip_ne _ _ h2, getD_strip_ne _ _ h3]

lemma build_transaction_time_round (x : TransactionTimeSettings) (hx : x.WF) :
    build_dataclass TransactionTimeSettings.valid_fields TransactionTimeSettings.of_payload
      (some (Value.vdict (strip_none x.fields))) = Except.ok (some x) := by
  have hf : (strip_none x.fields).filter
      (fun kv => decide (kv.1 ∈ TransactionTimeSettings.valid_fields)) = strip_none x.fields := by
    refine filter_valid_of_keys _ _ (fun kv hkv => ?_)
    simp only [TransactionTimeSettings.fields, List.mem_cons, List.not_mem_nil, or_false] at hkv
    rcases hkv with rfl|rfl|rfl <;> simp [TransactionTimeSettings.valid_fields]
  simp only [build_dataclass, hf]
  suffices h : TransactionTimeSettings.of_payload (strip_none x.fields) = x by rw [h]; rfl
  obtain ⟨ar, ab, bp⟩ := x
  obtain ⟨h1, h2, h3⟩ := hx
  simp [TransactionTimeSettings.of_payload, TransactionTimeSettings.fields, getField,
    lookupKey_strip_cons_ne, lookupKey_strip_cons_self, getD_strip,
    getD_strip_ne _ _ h1, getD_strip_ne _ _ h2, getD_strip_ne _ _ h3]

lemma matches_vnone_false {v : Value} (h : ¬ v = Value.vnone) :
    (v matches Value.vnone) = false := by
  cases v <;> first | rfl | exact absurd rfl h

lemma strip_isEmpty_false_of_mem {fs : Fields} {k : String} {v : Value}
    (hmem : (k, v) ∈ fs) (hv : v ≠ Value.vnone) :
    (strip_none fs).isEmpty = false := by
  have h1 : (k, v) ∈ strip_none fs :=
    List.mem_filter.mpr ⟨hmem, by cases v <;> simp_all⟩
  cases hsn : strip_none fs with
  | nil => rw [hsn] at h1; cases h1
  | cons a l => rfl

/-! Section-level assembly lemmas: each `from_dict` ingredient applied to
the corresponding `to_dict` output restores the section of the tree. -/

lemma global_round (t : Config) :
    build_dataclass GlobalSettings.valid_fields GlobalSettings.of_payload
      (global_payload t) = Except.ok t.global_settings := by
  cases hg : t.global_settings with
  | none => simp [global_payload, hg, build_dataclass, pure, Except.pure]
  | some g => simpa [global_payload, hg] using build_global_round g

lemma chart_round (t : Config) :
    build_dataclass ChartOfAccountsSettings.valid_fields ChartOfAccountsSettings.of_payload
      (chart_of_accounts_payload t) = Except.ok t.chart_of_accounts := by
  cases hg : t.chart_of_accounts with
  | none => simp [chart_of_accounts_payload, hg, build_dataclass, pure, Except.pure]
  | some x => simpa [chart_of_accounts_payload, hg] using build_chart_round x

lemma transactions_payload_none (t : Config) : transactions_payload t = none := by
  cases ht : t.transactions with
  | none => simp [transactions_payload, ht]
  | some x => simp [transactions_payload, ht, transactions_section, ite_self]

lemma fraud_round (t : Config) (h : ∀ f ∈ t.fraud, f.WF) :
    build_dataclass FraudSettings.valid_fields FraudSettings.of_payload
      (fraud_payload t) = Except.ok t.fraud := by
  cases hf : t.fraud with
  | none => simp [fraud_payload, hf, build_dataclass, pure, Except.pure]
  | some f =>
      have hne : (strip_none f.fields).isEmpty = false := by
        rcases h f (by rw [hf]; rfl) with he | hr
        · exact strip_isEmpty_false_of_mem (k := "enabled")
            (by simp [FraudSettings.fields]) he
        · exact strip_isEmpty_false_of_mem (k := "rate")
            (by simp [FraudSettings.fields]) hr
      simpa [fraud_payload, hf, sparse_payload, hne] using build_fraud_round f

lemma banking_round (t : Config) (h : ∀ b ∈ t.banking, b.WF) :
    build_dataclass BankingSettings.valid_fields BankingSettings.of_payload
      (banking_payload t) = Except.ok t.banking := by
  cases hb : t.banking with
  | none => simp [banking_payload, hb, build_dataclass, pure, Except.pure]
  | some b =>
      have hwf := h b (by rw [hb]; rfl)
      have hne : (strip_none b.fields).isEmpty = false :=
        strip_isEmpty_false_of_mem (k := "enabled")
          (by simp [BankingSettings.fields]) hwf
      simpa [banking_payload, hb, sparse_payload, hne] using build_banking_round b hwf

lemma scenario_round (t : Config) (h : ∀ s ∈ t.scenario, s.WF) :
    build_dataclass ScenarioSettings.valid_fields ScenarioSettings.of_payload
      (scenario_payload t) = Except.ok t.scenario := by
  cases hs : t.scenario with
  | none => simp [scenario_payload, hs, build_dataclass, pure, Except.pure]
  | some s =>
      have hwf := h s (by rw [hs]; rfl)
      have hne : (strip_none s.fields).isEmpty = false :=
        strip_isEmpty_false_of_mem (k := "ml_training")
          (by simp [ScenarioSettings.fields]) hwf
      simpa [scenario_payload, hs, sparse_payload, hne] using build_scenario_round s hwf

lemma temporal_round (t : Config) (h : ∀ td ∈ t.temporal, td.WF) :
    build_dataclass TemporalDriftSettings.valid_fields TemporalDriftSettings.of_payload
      (temporal_payload t) = Except.ok t.temporal := by
  cases ht : t.temporal with
  | none => simp [temporal_payload, ht, build_dataclass, pure, Except.pure]
  | some td =>
      have hwf := h td (by rw [ht]; rfl)
      have hne : (strip_none td.fields).isEmpty = false :=
        strip_isEmpty_false_of_mem (k := "enabled")
          (by simp [TemporalDriftSettings.fields]) hwf.1
      simpa [temporal_payload, ht, sparse_payload, hne] using build_temporal_round td hwf

lemma data_quality_round (t : Config) (h : ∀ dq ∈ t.data_quality, dq.WF) :
    build_dataclass DataQualitySettings.valid_fields DataQualitySettings.of_payload
      (data_quality_payload t) = Except.ok t.data_quality := by
  cases ht : t.data_quality with
  | none => simp [data_quality_payload, ht, build_dataclass, pure, Except.pure]
  | some dq =>
      have hwf := h dq (by rw [ht]; rfl)
      have hne : (strip_none dq.fields).isEmpty = false :=
        strip_isEmpty_false_of_mem (k := "enabled")
          (by simp [DataQualitySettings.fields]) hwf.1
      simpa [data_quality_payload, ht, sparse_payload, hne] using
        build_data_quality_round dq hwf

lemma graph_export_round (t : Config) (h : ∀ ge ∈ t.graph_export, ge.WF) :
    build_dataclass GraphExportSettings.valid_fields GraphExportSettings.of_payload
      (graph_export_payload t) = Except.ok t.graph_export := by
  cases ht : t.graph_export with
  | none => simp [graph_export_payload, ht, build_dataclass, pure, Except.pure]
  | some ge =>
      have hwf := h ge (by rw [ht]; rfl)
      have hne : (strip_none ge.fields).isEmpty = false :=
        strip_isEmpty_false_of_mem (k := "enabled")
          (by simp [GraphExportSettings.fields]) hwf.1
      simpa [graph_export_payload, ht, sparse_payload, hne] using
        build_graph_export_round ge hwf

lemma audit_round (t : Config) (h : ∀ a ∈ t.audit, a.WF) :
    build_dataclass AuditSettings.valid_fields AuditSettings.of_payload
      (audit_payload t) = Except.ok t.audit := by
  cases ht : t.audit with
  | none => simp [audit_payload, ht, build_dataclass, pure, Except.pure]
  | some a =>
      have hwf := h a (by rw [ht]; rfl)
      have hne : (strip_none a.fields).isEmpty = false :=
        strip_isEmpty_false_of_mem (k := "enabled")
          (by simp [AuditSettings.fields]) hwf.1
      simpa [audit_payload, ht, sparse_payload, hne] using build_audit_round a hwf

lemma streaming_round (t : Config) (h : ∀ s ∈ t.streaming, s.WF) :
    build_dataclass StreamingSettings.valid_fields StreamingSettings.of_payload
      (streaming_payload t) = Except.ok t.streaming := by
  cases ht : t.streaming with
  | none => simp [streaming_payload, ht, build_dataclass, pure, Except.pure]
  | some s =>
      have hwf := h s (by rw [ht]; rfl)
      have hne : (strip_none s.fields).isEmpty = false :=
        strip_isEmpty_false_of_mem (k := "enabled")
          (by simp [StreamingSettings.fields]) hwf.1
      simpa [streaming_payload, ht, sparse_payload, hne] using build_streaming_round s hwf

lemma rate_limit_round (t : Config) (h : ∀ r ∈ t.rate_limit, r.WF) :
    build_dataclass RateLimitSettings.valid_fields RateLimitSettings.of_payload
      (rate_limit_payload t) = Except.ok t.rate_limit := by
  cases ht : t.rate_limit with
  | none => simp [rate_limit_payload, ht, build_dataclass, pure, Except.pure]
  | some r =>
      have hwf := h r (by rw [ht]; rfl)
      have hne : (strip_none r.fields).isEmpty = false :=
        strip_isEmpty_false_of_mem (k := "enabled")
          (by simp [RateLimitSettings.fields]) hwf.1
      simpa [rate_limit_payload, ht, sparse_payload, hne] using build_rate_limit_round r hwf

lemma output_round (t : Config) (h : ∀ o ∈ t.output, o.WF) :
    build_dataclass OutputSettings.valid_fields OutputSettings.of_payload
      (output_payload t) = Except.ok t.output := by
  cases ho : t.output with
  | none => simp [output_payload, ho, build_dataclass, pure, Except.pure]
  | some o =>
      obtain ⟨hce, hcl, hof⟩ := h o (by rw [ho]; rfl)
      obtain ⟨od, fm, ce, cl⟩ := o
      simp only at hce hcl
      subst hce; subst hcl
      simp only [output_payload, ho, Option.bind_some]
      by_cases h1 : od = Value.vnone <;> by_cases h2 : fm = Value.vnone
      · simp_all
      · subst h1
        simp [output_section, OutputSettings.fields, strip_none,
          matches_vnone_false h2, build_dataclass, OutputSettings.of_payload,
          OutputSettings.valid_fields, getField, setKey,
          getD_strip_ne _ _ h2, pure, Except.pure]
      · subst h2
        simp [output_section, OutputSettings.fields, strip_none,
          matches_vnone_false h1, build_dataclass, OutputSettings.of_payload,
          OutputSettings.valid_fields, getField, setKey,
          getD_strip_ne _ _ h1, pure, Except.pure]
      · simp [output_section, OutputSettings.fields, strip_none,
          matches_vnone_false h1, matches_vnone_false h2, build_dataclass,
          OutputSettings.of_payload, OutputSettings.valid_fields, getField, setKey,
          getD_strip_ne _ _ h1, getD_strip_ne _ _ h2, pure, Except.pure]



lemma build_company_round (c : CompanyConfig) (hc : c.WF) :
    build_company (Value.vdict (strip_none c.fields)) = Except.ok c := by
  obtain ⟨cd, nm, cu, co, atv, vw, fy⟩ := c
  obtain ⟨h1, h2, h3, h4, h5, h6, h7⟩ := hc
  rw [strip_none_eq_self]
  · simp [build_company, CompanyConfig.fields, CompanyConfig.valid_fields,
      getField, pure, Except.pure]
  · intro kv hkv
    simp only [CompanyConfig.fields, List.mem_cons, List.not_mem_nil, or_false] at hkv
    rcases hkv with rfl|rfl|rfl|rfl|rfl|rfl|rfl <;> assumption

lemma mapM_build_company (cs : List CompanyConfig) (h : ∀ c ∈ cs, c.WF) :
    (cs.map (fun x => Value.vdict (strip_none x.fields))).mapM build_company =
      Except.ok cs := by
  induction cs with
  | nil => rfl
  | cons c rest ih =>
      simp only [List.map_cons, List.mapM_cons,
        build_company_round c (h c (by simp)),
        ih (fun c hc => h c (by simp [hc]))]
      rfl

lemma companies_round (t : Config) (h : ∀ cs ∈ t.companies, ∀ c ∈ cs, c.WF)
    (gs : Option GlobalSettings) :
    build_companies (companies_payload t) gs = Except.ok (t.companies, gs) := by
  cases hc : t.companies with
  | none => simp [companies_payload, hc, build_companies, pure, Except.pure]
  | some cs =>
      have hm := mapM_build_company cs (h cs (by rw [hc]; rfl))
      simp only [companies_payload, hc, Option.map_some', build_companies]
      rw [hm]
      rfl

lemma chart_fallback_payload (t : Config) (coa : Option ChartOfAccountsSettings) :
    chart_fallback coa (companies_payload t) = coa := by
  cases hc : t.companies <;> cases coa <;> simp [companies_payload, hc, chart_fallback]



lemma of_payload_strip_vt (x : ValidTimeSettings) (hx : x.WF) :
    ValidTimeSettings.of_payload ((strip_none x.fields).filter
      (fun kv => decide (kv.1 ∈ ValidTimeSettings.valid_fields))) = x := by
  have hf : (strip_none x.fields).filter
      (fun kv => decide (kv.1 ∈ ValidTimeSettings.valid_fields)) = strip_none x.fields := by
    refine filter_valid_of_keys _ _ (fun kv hkv => ?_)
    simp only [ValidTimeSettings.fields, List.mem_cons, List.not_mem_nil, or_false] at hkv
    rcases hkv with rfl|rfl|rfl <;> simp [ValidTimeSettings.valid_fields]
  rw [hf]
  obtain ⟨cp, av, vs⟩ := x
  obtain ⟨h1, h2, h3⟩ := hx
  simp [ValidTimeSettings.of_payload, ValidTimeSettings.fields, getField,
    lookupKey_strip_cons_ne, lookupKey_strip_cons_self, getD_strip,
    getD_strip_ne _ _ h1, getD_strip_ne _ _ h2, getD_strip_ne _ _ h3]

lemma of_payload_strip_tt (x : TransactionTimeSettings) (hx : x.WF) :
    TransactionTimeSettings.of_payload ((strip_none x.fields).filter
      (fun kv => decide (kv.1 ∈ TransactionTimeSettings.valid_fields))) = x := by
  have hf : (strip_none x.fields).filter
      (fun kv => decide (kv.1 ∈ TransactionTimeSettings.valid_fields)) = strip_none x.fields := by
    refine filter_valid_of_keys _ _ (fun kv hkv => ?_)
    simp only [TransactionTimeSettings.fields, List.mem_cons, List.not_mem_nil, or_false] at hkv
    rcases hkv with rfl|rfl|rfl <;> simp [TransactionTimeSettings.valid_fields]
  rw [hf]
  obtain ⟨ar, ab, bp⟩ := x
  obtain ⟨h1, h2, h3⟩ := hx
  simp [TransactionTimeSettings.of_payload, TransactionTimeSettings.fields, getField,
    lookupKey_strip_cons_ne, lookupKey_strip_cons_self, getD_strip,
    getD_strip_ne _ _ h1, getD_strip_ne _ _ h2, getD_strip_ne _ _ h3]

lemma ta_round (t : Config) (h : ∀ ta ∈ t.temporal_attributes, ta.WF) :
    build_temporal_attributes (temporal_attributes_payload t) =
      Except.ok t.temporal_attributes := by
  cases hta : t.temporal_attributes with
  | none => simp [temporal_attributes_payload, hta, build_temporal_attributes, pure, Except.pure]
  | some ta =>
      obtain ⟨hvt, htt⟩ := h ta (by rw [hta]; rfl)
      obtain ⟨e, vt, tt, gvc, av⟩ := ta
      simp only at hvt htt
      simp only [temporal_attributes_payload, hta, Option.map_some']
      cases vt with
      | none =>
          cases tt with
          | none =>
              simp [temporal_attributes_section, setKey, build_temporal_attributes,
                build_dataclass, getField, pure, Except.pure, bind, Except.bind]
          | some ttv =>
              have h2 := of_payload_strip_tt ttv (htt ttv rfl)
              simp [temporal_attributes_section, setKey, build_temporal_attributes,
                getField, h2, build_dataclass, pure, Except.pure, bind, Except.bind]
      | some vtv =>
          have h1 := of_payload_strip_vt vtv (hvt vtv rfl)
          cases tt with
          | none =>
              simp [temporal_attributes_section, setKey, build_temporal_attributes,
                getField, h1, build_dataclass, pure, Except.pure, bind, Except.bind]
          | some ttv =>
              have h2 := of_payload_strip_tt ttv (htt ttv rfl)
              simp [temporal_attributes_section, setKey, build_temporal_attributes,
                getField, h1, h2, build_dataclass, pure, Except.pure, bind, Except.bind]



@[simp] lemma truthy_vnone : truthy Value.vnone = false := rfl

@[simp] lemma truthy_vdict_cons (kv : String × Value) (l : Fields) :
    truthy (Value.vdict (kv :: l)) = true := by simp [truthy]

@[simp] lemma truthy_vlist_cons (v : Value) (l : List Value) :
    truthy (Value.vlist (v :: l)) = true := by simp [truthy]

lemma build_rt_round (rt : RelationshipTypeConfig) (h : rt.WF) :
    build_relationship_type (relationshipTypeEntry rt) = Except.ok rt := by
  obtain ⟨nm, st, tt, cd, w⟩ := rt
  cases cd with
  | none =>
      simp [relationshipTypeEntry, build_relationship_type, getField,
        pure, Except.pure, bind, Except.bind]
  | some c =>
      obtain ⟨hmn, hmx⟩ := h c rfl
      obtain ⟨rty, mn, mx⟩ := c
      rcases hmn with hm | hm <;> rcases hmx with hx | hx <;>
        simp_all [relationshipTypeEntry, build_relationship_type, getField,
          pure, Except.pure, bind, Except.bind]

lemma mapM_build_rt (rts : List RelationshipTypeConfig)
    (h : ∀ rt ∈ rts, rt.WF) :
    (rts.map relationshipTypeEntry).mapM build_relationship_type = Except.ok rts := by
  induction rts with
  | nil => rfl
  | cons rt rest ih =>
      simp only [List.map_cons, List.mapM_cons,
        build_rt_round rt (h rt (by simp)),
        ih (fun x hx => h x (by simp [hx]))]
      rfl

lemma relationships_round (t : Config) (h : ∀ r ∈ t.relationships, r.WF) :
    build_relationships (relationships_payload t) = Except.ok t.relationships := by
  cases hr : t.relationships with
  | none => simp [relationships_payload, hr, build_relationships, pure, Except.pure]
  | some r =>
      obtain ⟨hne, hwf⟩ := h r (by rw [hr]; rfl)
      obtain ⟨e, rts, ao, op, ac, mc⟩ := r
      simp only at hne hwf
      simp only [relationships_payload, hr, Option.map_some']
      cases rts with
      | none =>
          simp [relationships_section, setKey, build_relationships, getField,
            pure, Except.pure, bind, Except.bind]
      | some l =>
          cases l with
          | nil => exact absurd rfl hne
          | cons rt0 lrest =>
              have hm := mapM_build_rt (rt0 :: lrest) (hwf _ rfl)
              have hm2 : List.mapM.loop build_relationship_type
                  (relationshipTypeEntry rt0 :: List.map relationshipTypeEntry lrest) [] =
                  Except.ok (rt0 :: lrest) := by
                simpa [List.mapM, List.map_cons] using hm
              simp [relationships_section, setKey, build_relationships, getField,
                hm2, pure, Except.pure, bind, Except.bind]

lemma extra_round (t : Config)
    (hx : ∀ kv ∈ t.extra, kv.1 ∉ known_keys) (hn : (keysOf t.extra).Nodup) :
    (Config.to_dict t).filter (fun kv => decide (kv.1 ∉ known_keys)) = t.extra := by
  rw [to_dict_eq_append t hx hn, List.filter_append]
  have h1 : (sectionPayload t).filter (fun kv => decide (kv.1 ∉ known_keys)) = [] := by
    rw [List.filter_eq_nil_iff]
    intro kv hkv
    simp only [decide_not, Bool.not_eq_true', decide_eq_false_iff_not, not_not]
    exact keys_sectionPayload_sub (by simpa [keysOf] using List.mem_map_of_mem Prod.fst hkv)
  have h2 : t.extra.filter (fun kv => decide (kv.1 ∉ known_keys)) = t.extra := by
    refine List.filter_eq_self.mpr (fun kv hkv => by simpa using hx kv hkv)
  rw [h1, h2, List.nil_append]

lemma build_dataclass_none {α : Type} (valid : List String) (ofP : Fields → α) :
    build_dataclass valid ofP none = pure none := rfl

theorem from_dict_to_dict (t : Config) (h : t.RoundTripWF) :
    Config.from_dict (Config.to_dict t) = Except.ok t := by
  obtain ⟨hcomp, htx, hout, hfr, hbk, hsc, htd, hdq, hge, hau, hst, hrl, hta, hre, hx, hn⟩ := h
  have hL : ∀ k ∈ known_keys,
      lookupKey (Config.to_dict t) k = lookupKey (sectionPayload t) k :=
    fun k hk => lookup_to_dict_known t hx hn hk
  have Lg := (hL "global" (by simp [known_keys])).trans (lookup_sectionPayload_global t)
  have Lc := (hL "companies" (by simp [known_keys])).trans (lookup_sectionPayload_companies t)
  have Lch := (hL "chart_of_accounts" (by simp [known_keys])).trans (lookup_sectionPayload_chart t)
  have Ltx := (hL "transactions" (by simp [known_keys])).trans (lookup_sectionPayload_transactions t)
  have Lo := (hL "output" (by simp [known_keys])).trans (lookup_sectionPayload_output t)
  have Lf := (hL "fraud" (by simp [known_keys])).trans (lookup_sectionPayload_fraud t)
  have Lb := (hL "banking" (by simp [known_keys])).trans (lookup_sectionPayload_banking t)
  have Ls := (hL "scenario" (by simp [known_keys])).trans (lookup_sectionPayload_scenario t)
  have Lt := (hL "temporal" (by simp [known_keys])).trans (lookup_sectionPayload_temporal t)
  have Ldq := (hL "data_quality" (by simp [known_keys])).trans (lookup_sectionPayload_data_quality t)
  have Lge := (hL "graph_export" (by simp [known_keys])).trans (lookup_sectionPayload_graph_export t)
  have Lau := (hL "audit" (by simp [known_keys])).trans (lookup_sectionPayload_audit t)
  have Lst := (hL "streaming" (by simp [known_keys])).trans (lookup_sectionPayload_streaming t)
  have Lrl := (hL "rate_limit" (by simp [known_keys])).trans (lookup_sectionPayload_rate_limit t)
  have Lta := (hL "temporal_attributes" (by simp [known_keys])).trans (lookup_sectionPayload_temporal_attributes t)
  have Lre := (hL "relationships" (by simp [known_keys])).trans (lookup_sectionPayload_relationships t)
  simp only [Config.from_dict, Lg, Lc, Lch, Ltx, Lo, Lf, Lb, Ls, Lt, Ldq, Lge, Lau,
    Lst, Lrl, Lta, Lre, transactions_payload_none, global_round, companies_round t hcomp,
    chart_round, chart_fallback_payload, output_round t hout, fraud_round t hfr,
    banking_round t hbk, scenario_round t hsc, temporal_round t htd,
    data_quality_round t hdq, graph_export_round t hge, audit_round t hau,
    streaming_round t hst, rate_limit_round t hrl, ta_round t hta,
    relationships_round t hre, extra_round t hx hn,
    build_dataclass_none, bind, Except.bind, pure, Except.pure]
  rw [← htx]

lemma pyDataFields_mem {d : Fields} {k : String} {v : Value}
    (hpd : pyDataFields d = true) (hmem : (k, v) ∈ d) : v.pyData = true := by
  induction d with
  | nil => cases hmem
  | cons kv rest ih =>
      obtain ⟨k', v'⟩ := kv
      simp only [pyDataFields, Bool.and_eq_true] at hpd
      rcases List.mem_cons.mp hmem with h | h
      · obtain ⟨h1, h2⟩ := Prod.mk.injEq .. ▸ h
        subst h2; exact hpd.1
      · exact ih hpd.2 h

lemma sizeOf_lt_of_mem_vdict {d : Fields} {k : String} {m : Fields}
    (hmem : (k, Value.vdict m) ∈ d) : sizeOf m < sizeOf d := by
  have h1 := List.sizeOf_lt_of_mem hmem
  simp at h1
  omega

theorem deep_merge_sub : ∀ (n : Nat) (d : Fields), sizeOf d < n →
    (keysOf d).Nodup → pyDataFields d = true →
    ∀ tail, (∀ kv ∈ tail, kv ∈ d) → deep_merge d tail = d := by
  intro n
  induction n with
  | zero => intro d hd; omega
  | succ n ih =>
      intro d hd hnd hpd tail
      induction tail with
      | nil => intro _; rw [deep_merge.eq_def]
      | cons kv rest ihtail =>
          intro hmem
          obtain ⟨k, v⟩ := kv
          have hkv : (k, v) ∈ d := hmem _ (by simp)
          have hlk : lookupKey d k = some v := lookupKey_of_mem_nodup hnd hkv
          have hstep : deep_merge_key d k v = d := by
            cases v with
            | vdict m =>
                have hsz : sizeOf m < sizeOf d := sizeOf_lt_of_mem_vdict hkv
                have hpm : Value.pyData (Value.vdict m) = true := pyDataFields_mem hpd hkv
                simp only [Value.pyData, Bool.and_eq_true, decide_eq_true_eq] at hpm
                have hm : deep_merge m m = m :=
                  ih m (by omega) hpm.1 hpm.2 m (fun kv h => h)
                have heq : deep_merge_key d k (Value.vdict m) =
                    setKey d k (Value.vdict (deep_merge m m)) := by
                  rw [deep_merge_key.eq_def, hlk]
                rw [heq, hm, setKey_of_lookup_self hlk]
            | vdc fs =>
                have hpm := pyDataFields_mem hpd hkv
                simp [Value.pyData] at hpm
            | vnone => rw [deep_merge_key.eq_def, hlk]; exact setKey_of_lookup_self hlk
            | vbool b => rw [deep_merge_key.eq_def, hlk]; exact setKey_of_lookup_self hlk
            | vint nn => rw [deep_merge_key.eq_def, hlk]; exact setKey_of_lookup_self hlk
            | vrat q => rw [deep_merge_key.eq_def, hlk]; exact setKey_of_lookup_self hlk
            | vstr s => rw [deep_merge_key.eq_def, hlk]; exact setKey_of_lookup_self hlk
            | vlist xs => rw [deep_merge_key.eq_def, hlk]; exact setKey_of_lookup_self hlk
          have hcons : deep_merge d ((k, v) :: rest) = deep_merge (deep_merge_key d k v) rest := by
            rw [deep_merge.eq_def]
          rw [hcons, hstep]
          exact ihtail (fun kv h => hmem kv (by simp [h]))

/-- Merging a plain-data dict with itself is the identity. -/
theorem deep_merge_self (d : Fields)
    (hpd : Value.pyData (Value.vdict d) = true) : deep_merge d d = d := by
  simp only [Value.pyData, Bool.and_eq_true, decide_eq_true_eq] at hpd
  exact deep_merge_sub (sizeOf d + 1) d (by omega) hpd.1 hpd.2 d (fun kv h => h)

/-! The claims. -/

/-- C1 counterexample: override with the tree's own canonical mapping is
not a no-op for a tree with a transactions section — the section is lost. -/
theorem C1_override_self_counterexample :
    Config.override cfgTx (Config.to_dict cfgTx) = Except.ok ({} : Config) ∧
    ({} : Config) ≠ cfgTx := by
  constructor
  · show Config.from_dict (deep_merge (Config.to_dict cfgTx) (Config.to_dict cfgTx)) = _
    rw [show Config.to_dict cfgTx = [] from rfl, deep_merge.eq_def]
    rfl
  · simp [cfgTx]

/-- C1 amended: for a tree whose canonical mapping is plain data and which
survives normalization (`from_dict (to_dict t) = ok t`), overriding with
its own canonical mapping is a no-op. -/
theorem C1_override_self (t : Config)
    (hpd : Value.pyData (Value.vdict (Config.to_dict t)) = true)
    (hrt : Config.from_dict (Config.to_dict t) = Except.ok t) :
    Config.override t (Config.to_dict t) = Except.ok t := by
  simp only [Config.override]
  rw [deep_merge_self _ hpd, hrt]

/-- C1 witness at a concrete tree. -/
theorem C1_override_self_witness :
    Value.pyData (Value.vdict (Config.to_dict cfgW1)) = true ∧
    Config.from_dict (Config.to_dict cfgW1) = Except.ok cfgW1 ∧
    Config.override cfgW1 (Config.to_dict cfgW1) = Except.ok cfgW1 := by
  have hpd : Value.pyData (Value.vdict (Config.to_dict cfgW1)) = true := by
    rw [show Config.to_dict cfgW1 =
      [("global", Value.vdict [("industry", Value.vstr "retail")]),
       ("fraud", Value.vdict [("enabled", Value.vbool true), ("rate", Value.vrat (1/10))])]
      from rfl]
    simp [Value.pyData, pyDataFields, pyDataList, keysOf]
  exact ⟨hpd, rfl, C1_override_self cfgW1 hpd rfl⟩



/-- C2 counterexample: a tree with an explicitly-set transactions field does
not survive `from_dict ∘ to_dict`; the section comes back unset. -/
theorem C2_roundtrip_counterexample :
    Config.from_dict (Config.to_dict cfgTx) = Except.ok ({} : Config) ∧
    ({} : Config) ≠ cfgTx := ⟨rfl, by simp [cfgTx]⟩

/-- C2 amended: full round trip for every tree in the `RoundTripWF` class. -/
theorem C2_roundtrip (t : Config) (h : t.RoundTripWF) :
    Config.from_dict (Config.to_dict t) = Except.ok t :=
  from_dict_to_dict t h

/-- C2 witness at a tree exercising every section kind. -/
theorem C2_roundtrip_witness :
    Config.RoundTripWF cfgW2 ∧
    Config.from_dict (Config.to_dict cfgW2) = Except.ok cfgW2 := by
  have hwf : Config.RoundTripWF cfgW2 := by
    simp [Config.RoundTripWF, cfgW2, CompanyConfig.WF, OutputSettings.WF,
      FraudSettings.WF, BankingSettings.WF, ScenarioSettings.WF,
      TemporalDriftSettings.WF, DataQualitySettings.WF, GraphExportSettings.WF,
      AuditSettings.WF, StreamingSettings.WF, RateLimitSettings.WF,
      TemporalAttributeSettings.WF, ValidTimeSettings.WF, TransactionTimeSettings.WF,
      RelationshipSettings.WF, RelationshipTypeConfig.WF, CardinalityRule.WF,
      relW2, rtW2, known_keys, keysOf, truthy]
  exact ⟨hwf, C2_roundtrip cfgW2 hwf⟩



/-- C3 counterexample: the claim's own example fails — a present
`GlobalSettings()` with every field unset still contributes a `"global"`
key (bound to an empty mapping) to the canonical output. -/
theorem C3_sparse_counterexample :
    lookupKey (Config.to_dict { global_settings := some {} }) "global" =
      some (Value.vdict []) := rfl

/-- C3 amended: per section and independently of the rest of the tree —
a present guarded section (output, fraud, banking, scenario, temporal,
data_quality, graph_export, audit, streaming, rate_limit) with all fields
unset contributes no key, and transactions never contributes one at all;
whereas global and chart_of_accounts are emitted unconditionally when
present (even all-unset, as the counterexample shows), and companies,
temporal_attributes and relationships always contribute a key when
present. -/
theorem C3_sparse_guarded (t : Config)
    (hx : ∀ kv ∈ t.extra, kv.1 ∉ known_keys)
    (hn : (keysOf t.extra).Nodup) :
    lookupKey (Config.to_dict t) "transactions" = none ∧
    (t.output = some outputAllNone →
      lookupKey (Config.to_dict t) "output" = none) ∧
    (t.fraud = some fraudAllNone →
      lookupKey (Config.to_dict t) "fraud" = none) ∧
    (t.banking = some bankingAllNone →
      lookupKey (Config.to_dict t) "banking" = none) ∧
    (t.scenario = some scenarioAllNone →
      lookupKey (Config.to_dict t) "scenario" = none) ∧
    (t.temporal = some temporalAllNone →
      lookupKey (Config.to_dict t) "temporal" = none) ∧
    (t.data_quality = some dataQualityAllNone →
      lookupKey (Config.to_dict t) "data_quality" = none) ∧
    (t.graph_export = some graphExportAllNone →
      lookupKey (Config.to_dict t) "graph_export" = none) ∧
    (t.audit = some auditAllNone →
      lookupKey (Config.to_dict t) "audit" = none) ∧
    (t.streaming = some streamingAllNone →
      lookupKey (Config.to_dict t) "streaming" = none) ∧
    (t.rate_limit = some rateLimitAllNone →
      lookupKey (Config.to_dict t) "rate_limit" = none) ∧
    (∀ g, t.global_settings = some g →
      lookupKey (Config.to_dict t) "global" = some (Value.vdict (strip_none g.fields))) ∧
    (∀ x, t.chart_of_accounts = some x →
      lookupKey (Config.to_dict t) "chart_of_accounts" =
        some (Value.vdict (strip_none x.fields))) ∧
    (∀ cs, t.companies = some cs →
      lookupKey (Config.to_dict t) "companies" =
        some (Value.vlist (cs.map (fun x => Value.vdict (strip_none x.fields))))) ∧
    (∀ ta, t.temporal_attributes = some ta →
      lookupKey (Config.to_dict t) "temporal_attributes" =
        some (temporal_attributes_section ta)) ∧
    (∀ r, t.relationships = some r →
      lookupKey (Config.to_dict t) "relationships" =
        some (relationships_section r)) := by
  refine ⟨?_, fun ho => ?_, fun hf => ?_, fun hb => ?_, fun hs => ?_, fun htd => ?_,
    fun hdq => ?_, fun hge => ?_, fun hau => ?_, fun hst => ?_, fun hrl => ?_,
    fun g hg => ?_, fun x hch => ?_, fun cs hcs => ?_, fun ta hta => ?_,
    fun r hr => ?_⟩
  · rw [lookup_to_dict_known t hx hn (by simp [known_keys]),
      lookup_sectionPayload_transactions, transactions_payload_none]
  · rw [lookup_to_dict_known t hx hn (by simp [known_keys]),
      lookup_sectionPayload_output]
    simp [output_payload, ho, outputAllNone, output_section, OutputSettings.fields,
      strip_none]
  · rw [lookup_to_dict_known t hx hn (by simp [known_keys]),
      lookup_sectionPayload_fraud]
    simp [fraud_payload, hf, fraudAllNone, sparse_payload, FraudSettings.fields,
      strip_none]
  · rw [lookup_to_dict_known t hx hn (by simp [known_keys]),
      lookup_sectionPayload_banking]
    simp [banking_payload, hb, bankingAllNone, sparse_payload, BankingSettings.fields,
      strip_none]
  · rw [lookup_to_dict_known t hx hn (by simp [known_keys]),
      lookup_sectionPayload_scenario]
    simp [scenario_payload, hs, scenarioAllNone, sparse_payload, ScenarioSettings.fields,
      strip_none]
  · rw [lookup_to_dict_known t hx hn (by simp [known_keys]),
      lookup_sectionPayload_temporal]
    simp [temporal_payload, htd, temporalAllNone, sparse_payload,
      TemporalDriftSettings.fields, strip_none]
  · rw [lookup_to_dict_known t hx hn (by simp [known_keys]),
      lookup_sectionPayload_data_quality]
    simp [data_quality_payload, hdq, dataQualityAllNone, sparse_payload,
      DataQualitySettings.fields, strip_none]
  · rw [lookup_to_dict_known t hx hn (by simp [known_keys]),
      lookup_sectionPayload_graph_export]
    simp [graph_export_payload, hge, graphExportAllNone, sparse_payload,
      GraphExportSettings.fields, strip_none]
  · rw [lookup_to_dict_known t hx hn (by simp [known_keys]),
      lookup_sectionPayload_audit]
    simp [audit_payload, hau, auditAllNone, sparse_payload, AuditSettings.fields,
      strip_none]
  · rw [lookup_to_dict_known t hx hn (by simp [known_keys]),
      lookup_sectionPayload_streaming]
    simp [streaming_payload, hst, streamingAllNone, sparse_payload,
      StreamingSettings.fields, strip_none]
  · rw [lookup_to_dict_known t hx hn (by simp [known_keys]),
      lookup_sectionPayload_rate_limit]
    simp [rate_limit_payload, hrl, rateLimitAllNone, sparse_payload,
      RateLimitSettings.fields, strip_none]
  · rw [lookup_to_dict_known t hx hn (by simp [known_keys]),
      lookup_sectionPayload_global]
    simp [global_payload, hg]
  · rw [lookup_to_dict_known t hx hn (by simp [known_keys]),
      lookup_sectionPayload_chart]
    simp [chart_of_accounts_payload, hch]
  · rw [lookup_to_dict_known t hx hn (by simp [known_keys]),
      lookup_sectionPayload_companies]
    simp [companies_payload, hcs]
  · rw [lookup_to_dict_known t hx hn (by simp [known_keys]),
      lookup_sectionPayload_temporal_attributes]
    simp [temporal_attributes_payload, hta]
  · rw [lookup_to_dict_known t hx hn (by simp [known_keys]),
      lookup_sectionPayload_relationships]
    simp [relationships_payload, hr]

/-- C3 witness: the claim's canonical instance — a tree holding only a
fraud section with all fields unset emits no `fraud` key. -/
theorem C3_sparse_guarded_witness :
    (∀ kv ∈ cfgFraudOnly.extra, kv.1 ∉ known_keys) ∧
    cfgFraudOnly.fraud = some fraudAllNone ∧
    lookupKey (Config.to_dict cfgFraudOnly) "fraud" = none := by
  refine ⟨by simp [cfgFraudOnly], rfl, ?_⟩
  exact (C3_sparse_guarded cfgFraudOnly (by simp [cfgFraudOnly])
    (by simp [cfgFraudOnly, keysOf])).2.2.1 rfl

/-- C4: legacy entity-list expansion is deterministic — `count = n` yields
exactly the companies `C001 … C(n)` (zero-padded, gap-free, in order) named
`Company 1 …`, and the `industry` hint reaches `global` only when no
industry was already set: (a) absent `global` section, (b) `global` with an
explicit industry (kept), (c) `global` present without industry (hoisted,
other fields kept). -/
theorem C4_legacy_expansion :
    (∀ (n : Nat) (s : String),
      Config.from_dict [("companies", Value.vdict
          [("count", Value.vint n), ("industry", Value.vstr s)])] =
      Except.ok { companies := some ((List.range n).map (fun i =>
                    { code := Value.vstr ("C" ++ format03d (i + 1)),
                      name := Value.vstr ("Company " ++ toString (i + 1)) })),
                  global_settings := some { industry := Value.vstr s } }) ∧
    (∀ (n : Nat) (s s₀ : String),
      Config.from_dict [("global", Value.vdict [("industry", Value.vstr s₀)]),
          ("companies", Value.vdict
            [("count", Value.vint n), ("industry", Value.vstr s)])] =
      Except.ok { companies := some ((List.range n).map (fun i =>
                    { code := Value.vstr ("C" ++ format03d (i + 1)),
                      name := Value.vstr ("Company " ++ toString (i + 1)) })),
                  global_settings := some { industry := Value.vstr s₀ } }) ∧
    (∀ (n : Nat) (s d : String),
      Config.from_dict [("global", Value.vdict [("start_date", Value.vstr d)]),
          ("companies", Value.vdict
            [("count", Value.vint n), ("industry", Value.vstr s)])] =
      Except.ok { companies := some ((List.range n).map (fun i =>
                    { code := Value.vstr ("C" ++ format03d (i + 1)),
                      name := Value.vstr ("Company " ++ toString (i + 1)) })),
                  global_settings := some { industry := Value.vstr s,
                                            start_date := Value.vstr d } }) := by
  refine ⟨fun n s => ?_, fun n s s₀ => ?_, fun n s d => ?_⟩ <;>
    simp [Config.from_dict, build_dataclass, build_companies, getField, pyRange,
      build_temporal_attributes, build_relationships, chart_fallback, legacyCompany,
      GlobalSettings.of_payload, GlobalSettings.valid_fields,
      known_keys, bind, Except.bind, pure, Except.pure]

/-- C5: validation accumulates every violation (here all three, in pass
order) and `Config.validate` raises one `ConfigValidationError` carrying
exactly that list. -/
theorem C5_validation_completeness :
    validate_config cfgThree = Except.ok
      [{ path := "global.period_months", message := "must be between 1 and 120",
         value := Value.vint 0 },
       { path := "global.industry",
         message := "must be one of " ++ pyListRepr sorted_valid_industries,
         value := Value.vstr "bogus" },
       { path := "companies", message := "must have at least one company",
         value := Value.vint 0 }] ∧
    Config.validate cfgThree = Except.error (PyError.configValidationError
      (ConfigValidationError.ofErrors
        [{ path := "global.period_months", message := "must be between 1 and 120",
           value := Value.vint 0 },
         { path := "global.industry",
           message := "must be one of " ++ pyListRepr sorted_valid_industries,
           value := Value.vstr "bogus" },
         { path := "companies", message := "must have at least one company",
           value := Value.vint 0 }])) := ⟨rfl, rfl⟩



/-- C6 counterexample: overriding with a typed Section that sets only
`rate` erases the previously-set `fraud.enabled` — the sparse projection
replaces the base section wholesale instead of merging into it. -/
theorem C6_section_override_counterexample :
    (Config.override cfgFraudBase
        [("fraud", Value.vdc (FraudSettings.fields { rate := Value.vrat (9/10) }))]).map
      Config.fraud =
      Except.ok (some { enabled := Value.vnone, rate := Value.vrat (9/10) }) ∧
    ({ enabled := Value.vnone, rate := Value.vrat (9/10) } : FraudSettings) ≠
      { enabled := Value.vbool true, rate := Value.vrat (9/10) } := by
  constructor
  · simp only [Config.override]
    rw [show Config.to_dict cfgFraudBase =
      [("fraud", Value.vdict [("enabled", Value.vbool true), ("rate", Value.vrat (1/10))])]
      from rfl]
    simp only [deep_merge.eq_def, deep_merge_key.eq_def]
    rfl
  · simp

/-- C6 amended: a typed-Section override value is reduced to its sparse
projection and then bound wholesale — `_deep_merge` assigns
`strip_none(section.__dict__)` at the key, regardless of the base value. -/
theorem C6_section_override_replaces (base : Fields) (k : String) (fs : Fields) :
    deep_merge base [(k, Value.vdc fs)] =
      setKey base k (Value.vdict (strip_none fs)) := by
  simp only [deep_merge.eq_def, deep_merge_key.eq_def]



/-- C7 counterexample: an unknown key inside a `companies` element makes
`from_dict` raise (`CompanyConfig(**c)` is not filtered), contradicting
"never raise". -/
theorem C7_unknown_keys_counterexample :
    Config.from_dict [("companies", Value.vlist
        [Value.vdict [("code", Value.vstr "C1"), ("name", Value.vstr "X"),
                      ("bogus", Value.vint 1)]])] =
      Except.error "CompanyConfig got an unexpected keyword argument" := rfl

/-- C7 amended: every Section built through `_build_dataclass` silently
drops unknown keys and never fails on a mapping payload; `companies`
elements are the exception shown by the counterexample. -/
theorem C7_build_dataclass_drops_unknown {α : Type} (valid : List String)
    (ofPayload : Fields → α) (m junk : Fields)
    (h : ∀ kv ∈ junk, kv.1 ∉ valid) :
    build_dataclass valid ofPayload (some (Value.vdict (m ++ junk))) =
      build_dataclass valid ofPayload (some (Value.vdict m)) ∧
    ∃ a, build_dataclass valid ofPayload (some (Value.vdict m)) =
      Except.ok (some a) := by
  have hj : junk.filter (fun kv => decide (kv.1 ∈ valid)) = [] := by
    rw [List.filter_eq_nil_iff]
    intro kv hkv
    simpa using h kv hkv
  exact ⟨by simp [build_dataclass, List.filter_append, hj], _, rfl⟩

/-- C7 witness: unknown keys in a `global` payload are dropped. -/
theorem C7_build_dataclass_drops_unknown_witness :
    (∀ kv ∈ ([("bogus", Value.vint 1)] : Fields), kv.1 ∉ GlobalSettings.valid_fields) ∧
    build_dataclass GlobalSettings.valid_fields GlobalSettings.of_payload
        (some (Value.vdict ([("industry", Value.vstr "retail")] ++ [("bogus", Value.vint 1)]))) =
      build_dataclass GlobalSettings.valid_fields GlobalSettings.of_payload
        (some (Value.vdict [("industry", Value.vstr "retail")])) := by
  have h : ∀ kv ∈ ([("bogus", Value.vint 1)] : Fields), kv.1 ∉ GlobalSettings.valid_fields := by
    simp [GlobalSettings.valid_fields]
  exact ⟨h, (C7_build_dataclass_drops_unknown GlobalSettings.valid_fields
    GlobalSettings.of_payload [("industry", Value.vstr "retail")]
    [("bogus", Value.vint 1)] h).1⟩

/-- C8 counterexample: extra-bag keys can silently overwrite a known
section key of `to_dict` output (last write wins). -/
theorem C8_extra_overwrite_counterexample :
    Config.to_dict cfgClash = [("fraud", Value.vstr "boom")] := rfl

/-- C8 amended: for any tree produced by `from_dict` from a genuine dict
(no duplicate keys), the extra bag and the known sections partition the
top-level keys, and extra entries are then appended after the section
entries — they add but never overwrite. -/
theorem C8_extra_partition (data : Fields) (c : Config)
    (h : Config.from_dict data = Except.ok c)
    (hn : (keysOf data).Nodup) :
    (∀ kv ∈ c.extra, kv.1 ∉ known_keys) ∧
    Config.to_dict c = sectionPayload c ++ c.extra := by
  have hextra : c.extra = data.filter (fun kv => decide (kv.1 ∉ known_keys)) := by
    simp only [Config.from_dict, bind, Except.bind, pure, Except.pure] at h
    repeat' split at h
    all_goals simp_all
    all_goals (obtain ⟨rfl⟩ := h; rfl)
  have hx : ∀ kv ∈ c.extra, kv.1 ∉ known_keys := by
    rw [hextra]
    intro kv hkv
    simpa using (List.mem_filter.mp hkv).2
  have hnx : (keysOf c.extra).Nodup := by
    rw [hextra]
    exact List.Nodup.sublist ((List.filter_sublist _).map Prod.fst) hn
  exact ⟨hx, to_dict_eq_append c hx hnx⟩



/-- C8 witness: a mapping with one extra key round-trips into a disjoint
extra bag appended after the section payload. -/
theorem C8_extra_partition_witness :
    Config.from_dict dataC8 = Except.ok cfgC8 ∧
    (keysOf dataC8).Nodup ∧
    Config.to_dict cfgC8 = sectionPayload cfgC8 ++ cfgC8.extra := by
  refine ⟨rfl, by simp [dataC8, keysOf], ?_⟩
  exact (C8_extra_partition dataC8 cfgC8 rfl (by simp [dataC8, keysOf])).2

/-- C9: the `transactions.anomaly_rate` rule is dead through the typed
path — `to_dict` never emits a `transactions` key, so `validate_config`
reports no violation at all for an out-of-range anomaly rate, and
`Config.validate` succeeds. -/
theorem C9_anomaly_rate_rule_dead :
    lookupKey (Config.to_dict cfgAnomaly) "transactions" = none ∧
    validate_config cfgAnomaly = Except.ok [] ∧
    Config.validate cfgAnomaly = Except.ok () := ⟨rfl, rfl, rfl⟩

/-- C10: for every legacy-shaped input mapping, a missing `count` key
defaults to synthesizing exactly one company (`C001`, "Company 1"),
independently of the other keys; and a missing `industry` key hoists the
default hint `"retail"` into `global.industry` whenever that was not
already set — both when the global section is absent and when it is
present without an industry (its other fields kept). -/
theorem C10_legacy_defaults (data m : Fields) (c : Config)
    (hc : lookupKey data "companies" = some (Value.vdict m))
    (h : Config.from_dict data = Except.ok c) :
    (lookupKey m "count" = none →
      c.companies = some [{ code := Value.vstr "C001", name := Value.vstr "Company 1" }]) ∧
    (lookupKey m "industry" = none → lookupKey data "global" = none →
      c.global_settings = some { industry := Value.vstr "retail" }) ∧
    (∀ gm : Fields, lookupKey m "industry" = none →
      lookupKey data "global" = some (Value.vdict gm) →
      lookupKey gm "industry" = none →
      c.global_settings = some { GlobalSettings.of_payload
        (gm.filter (fun kv => decide (kv.1 ∈ GlobalSettings.valid_fields))) with
          industry := Value.vstr "retail" }) := by
  refine ⟨fun hcount => ?_, fun hind hg => ?_, fun gm hind hg hgi => ?_⟩
  · simp only [Config.from_dict, hc, hcount, build_dataclass, build_companies,
      getField, pyRange, bind, Except.bind, pure, Except.pure] at h
    repeat' split at h
    all_goals try (cases h)
    all_goals subst_eqs
    all_goals rfl
  · rcases hpr : pyRange ((lookupKey m "count").getD (Value.vint 1)) with e | idxs <;>
    · simp only [Config.from_dict, hc, hind, hg, build_dataclass, build_companies,
        getField, hpr, bind, Except.bind, pure, Except.pure] at h
      repeat' split at h
      all_goals try (cases h)
      all_goals rfl
  · have hfil : lookupKey (gm.filter
        (fun kv => decide (kv.1 ∈ GlobalSettings.valid_fields))) "industry" = none :=
      lookupKey_filter_none _ hgi
    rcases hpr : pyRange ((lookupKey m "count").getD (Value.vint 1)) with e | idxs <;>
    · simp only [Config.from_dict, hc, hind, hg, hfil, build_dataclass, build_companies,
        getField, hpr, GlobalSettings.of_payload, Option.getD_none,
        bind, Except.bind, pure, Except.pure] at h
      repeat' split at h
      all_goals try (cases h)
      all_goals first | rfl | (exfalso; simp_all)

/-- C10 witness: the defaults at `{"companies": {}}` (both keys missing,
global absent) and at a mapping with `count` present and a global section
without industry. -/
theorem C10_legacy_defaults_witness :
    (Config.from_dict dataC10a = Except.ok cfgC10a ∧
     cfgC10a.companies = some [{ code := Value.vstr "C001", name := Value.vstr "Company 1" }] ∧
     cfgC10a.global_settings = some { industry := Value.vstr "retail" }) ∧
    (Config.from_dict dataC10b = Except.ok cfgC10b ∧
     cfgC10b.global_settings = some { industry := Value.vstr "retail",
                                      start_date := Value.vstr "2024-01-01" }) := by
  refine ⟨⟨rfl, ?_, ?_⟩, rfl, ?_⟩
  · exact (C10_legacy_defaults dataC10a [] cfgC10a rfl rfl).1 rfl
  · exact (C10_legacy_defaults dataC10a [] cfgC10a rfl rfl).2.1 rfl rfl
  · exact (C10_legacy_defaults dataC10b [("count", Value.vint 2)] cfgC10b rfl rfl).2.2
      [("start_date", Value.vstr "2024-01-01")] rfl rfl rfl

end DataSynth
